import Mathlib

/-!
Verification development for the social-media publishing backend
(`backend/social`).  The definitions below are a shallow embedding of the
Python source: Django rows become structures, querysets become lists, the
remote platform HTTP APIs become an explicit environment (`RemoteEnv`)
mapping an account id to the response of each kind of request, and every
HTTP request actually issued is recorded as a `NetEvent`.

Sources embedded here:
  * `social/models.py` — `SocialAccount`, `SocialPost`, `SocialPostTarget`,
    `SocialAnalytics` (fields relevant to publishing and analytics);
  * `social/tasks.py` — `publish_post` (the dispatch task, including the
    per-platform branching, the mock branch for unknown platforms, the
    aggregate-status computation and the task-level retry countdown) and
    `process_scheduled_posts`;
  * `social/services/instagram_service.py` — `InstagramService.publish_post`
    (feed path, which is the only path the task invokes), the media
    container creation / publish steps and their token-error handling;
  * `social/services/facebook_service.py` — the publish entry point at the
    task boundary, and `_wait_for_instagram_container` (the bounded
    container polling loop);
  * `social/services/analytics_service.py` — `_update_post_analytics`;
  * `social/views.py` — the `publish` and `cancel` actions of
    `SocialPostViewSet`.
-/

namespace Social

/-- Connection status of a `SocialAccount` (`models.py` `STATUS_CHOICES`). -/
inductive AccountStatus
  | connected
  | expired
  | disconnected
  | error
deriving DecidableEq, Repr

/-- Lifecycle status of a `SocialPost` or `SocialPostTarget`.  The declared
choices are draft/scheduled/publishing/published/failed/cancelled; the code
additionally stores the undeclared values `partially_published` (on posts)
and `pending` (on targets), which Django does not validate on save. -/
inductive Status
  | draft
  | scheduled
  | publishing
  | published
  | partially_published
  | failed
  | cancelled
  | pending
deriving DecidableEq, Repr

/-- A `SocialAccount` row (fields used by the publishing pipeline). -/
structure Account where
  id : Nat
  platform : String
  accessToken : String
  status : AccountStatus
  postingEnabled : Bool
  errorMessage : String
deriving DecidableEq, Repr

/-- A `SocialPost` row (fields used by the publishing pipeline). -/
structure Post where
  id : Nat
  content : String
  postType : String
  hashtags : List String
  firstComment : String
  mediaFiles : List String
  status : Status
  scheduledAt : Option Nat
  publishedAt : Option Nat
deriving DecidableEq, Repr

/-- A `SocialPostTarget` row.  `unique_together = [post, account]` in
`models.py`, so `(postId, accountId)` is a key. -/
structure Target where
  postId : Nat
  accountId : Nat
  contentOverride : String
  hashtagsOverride : List String
  platformPostId : String
  platformUrl : String
  status : Status
  errorMessage : String
  publishedAt : Option Nat
  retryCount : Nat
  maxRetries : Nat
  nextRetryAt : Option Nat
deriving DecidableEq, Repr

/-- Outcome of one remote HTTP call: a 200 response carrying an id (and,
for publish calls, a url), or a non-200 response carrying the platform's
error message. -/
inductive RemoteResult
  | ok (objectId : String) (objectUrl : String)
  | err (message : String)
deriving DecidableEq, Repr

/-- The remote platforms, abstracted: for each kind of request the response
the platform would give for a given account id (and media url where the
request carries one).  This is the boundary at which
`requests.post`/`requests.get` happen in the source. -/
structure RemoteEnv where
  igCreateContainer : Nat → String → RemoteResult
  igCreateCarousel : Nat → RemoteResult
  igPublishContainer : Nat → RemoteResult
  fbPublish : Nat → RemoteResult
  liPublish : Nat → RemoteResult

/-- One HTTP request actually issued to a platform, tagged with the account
it was issued for. -/
inductive NetEvent
  | igCreateCall (accountId : Nat)
  | igCarouselCall (accountId : Nat)
  | igPublishCall (accountId : Nat)
  | igCommentCall (accountId : Nat)
  | fbCall (accountId : Nat)
  | liCall (accountId : Nat)
deriving DecidableEq, Repr

/-- The account a network event was issued for. -/
def NetEvent.accountId : NetEvent → Nat
  | .igCreateCall i => i
  | .igCarouselCall i => i
  | .igPublishCall i => i
  | .igCommentCall i => i
  | .fbCall i => i
  | .liCall i => i

/-- `pat` is a prefix of `hay` (character lists). -/
def charPrefix : List Char → List Char → Bool
  | [], _ => true
  | _ :: _, [] => false
  | c :: cs, d :: ds => c == d && charPrefix cs ds

/-- `pat` occurs somewhere inside `hay` (character lists). -/
def charInfix : List Char → List Char → Bool
  | pat, [] => pat.isEmpty
  | pat, c :: rest => charPrefix pat (c :: rest) || charInfix pat rest

/-- Python's `pat in s` substring test. -/
def containsSub (s pat : String) : Bool :=
  charInfix pat.data s.data

/-- Python's `s.lower()`. -/
def lowerString (s : String) : String :=
  String.mk (s.data.map Char.toLower)

/-- The markers `InstagramService` greps the platform error message for to
classify it as a token failure (`instagram_service.py` lines 256-262 and
354-360). -/
def tokenErrorMarkers : List String :=
  ["invalid oauth access token", "cannot parse access token", "access token",
   "token", "oauth"]

/-- Token-failure classification: any marker occurs in the lower-cased
error message. -/
def isTokenError (msg : String) : Bool :=
  tokenErrorMarkers.any (fun m => containsSub (lowerString msg) m)

/-- The validation message `InstagramService.publish_post` returns for an
empty media list (`instagram_service.py` lines 60-67), before any network
request is made. -/
def mediaRequiredMessage : String :=
  "Instagram requires at least one image or video. Text-only posts are not supported by Instagram Graph API 2025."

/-- The account update performed when Instagram reports a token error
(`instagram_service.py` lines 263-266): status becomes `expired` and the
error message records the platform message. -/
def markTokenExpired (acc : Account) (msg : String) : Account :=
  { acc with
      status := AccountStatus.expired,
      errorMessage := "Instagram access token expired: " ++ msg }

/-- The result dict a platform service returns to the task
(`success`, `post_id`, `post_url`, `error`). -/
structure ServiceResult where
  success : Bool
  postId : Option String
  postUrl : Option String
  error : Option String
deriving DecidableEq, Repr

/-- `InstagramService._create_media_container`: one HTTP POST; on a non-200
response whose message looks token-related the account is marked expired.
Returns the (possibly updated) account, the requests issued, and either the
container id or the formatted error message. -/
def ig_create_media_container (env : RemoteEnv) (acc : Account) (mediaUrl : String) :
    Account × List NetEvent × Except String String :=
  match env.igCreateContainer acc.id mediaUrl with
  | RemoteResult.ok cid _ =>
      (acc, [NetEvent.igCreateCall acc.id], Except.ok cid)
  | RemoteResult.err msg =>
      let acc' := if isTokenError msg then markTokenExpired acc msg else acc
      (acc', [NetEvent.igCreateCall acc.id],
       Except.error ("Failed to create media container: " ++ msg))

/-- `InstagramService._publish_media_container`: one HTTP POST with the same
token-error handling.  Returns the published media id or the error. -/
def ig_publish_media_container (env : RemoteEnv) (acc : Account) :
    Account × List NetEvent × Except String String :=
  match env.igPublishContainer acc.id with
  | RemoteResult.ok pid _ =>
      (acc, [NetEvent.igPublishCall acc.id], Except.ok pid)
  | RemoteResult.err msg =>
      let acc' := if isTokenError msg then markTokenExpired acc msg else acc
      (acc', [NetEvent.igPublishCall acc.id],
       Except.error ("Failed to publish media: " ++ msg))

/-- `InstagramService._get_shortcode_from_id`. -/
def ig_shortcode (postId : String) : String :=
  postId.replace "_" "/"

/-- `InstagramService._publish_single_media_post`: create container, publish
container, then best-effort first comment. -/
def ig_publish_single (env : RemoteEnv) (acc : Account) (mediaUrl : String)
    (firstComment : String) : Account × List NetEvent × ServiceResult :=
  match ig_create_media_container env acc mediaUrl with
  | (acc1, ev1, Except.error e) =>
      (acc1, ev1, { success := false, postId := none, postUrl := none, error := some e })
  | (acc1, ev1, Except.ok _) =>
      match ig_publish_media_container env acc1 with
      | (acc2, ev2, Except.error e) =>
          (acc2, ev1 ++ ev2,
           { success := false, postId := none, postUrl := none, error := some e })
      | (acc2, ev2, Except.ok pid) =>
          let ev3 := if firstComment != "" then [NetEvent.igCommentCall acc2.id] else []
          (acc2, ev1 ++ ev2 ++ ev3,
           { success := true, postId := some pid,
             postUrl := some ("https://www.instagram.com/p/" ++ ig_shortcode pid ++ "/"),
             error := none })

/-- The container-creation loop of `InstagramService._publish_carousel_post`
(one container per media item, aborting on the first failure). -/
def ig_create_containers (env : RemoteEnv) (acc : Account) :
    List String → Account × List NetEvent × Except String (List String)
  | [] => (acc, [], Except.ok [])
  | url :: rest =>
      match ig_create_media_container env acc url with
      | (acc1, ev1, Except.error e) => (acc1, ev1, Except.error e)
      | (acc1, ev1, Except.ok cid) =>
          match ig_create_containers env acc1 rest with
          | (acc2, ev2, r) => (acc2, ev1 ++ ev2, r.map (fun cids => cid :: cids))

/-- `InstagramService._publish_carousel_post`: child containers, carousel
container (no token-error handling on that call in the source), publish,
best-effort first comment. -/
def ig_publish_carousel (env : RemoteEnv) (acc : Account) (mediaUrls : List String)
    (firstComment : String) : Account × List NetEvent × ServiceResult :=
  match ig_create_containers env acc mediaUrls with
  | (acc1, ev1, Except.error e) =>
      (acc1, ev1, { success := false, postId := none, postUrl := none, error := some e })
  | (acc1, ev1, Except.ok _) =>
      match env.igCreateCarousel acc1.id with
      | RemoteResult.err msg =>
          (acc1, ev1 ++ [NetEvent.igCarouselCall acc1.id],
           { success := false, postId := none, postUrl := none,
             error := some ("Failed to create carousel container: " ++ msg) })
      | RemoteResult.ok _ _ =>
          match ig_publish_media_container env acc1 with
          | (acc2, ev2, Except.error e) =>
              (acc2, ev1 ++ [NetEvent.igCarouselCall acc1.id] ++ ev2,
               { success := false, postId := none, postUrl := none, error := some e })
          | (acc2, ev2, Except.ok pid) =>
              let ev3 := if firstComment != "" then [NetEvent.igCommentCall acc2.id] else []
              (acc2, ev1 ++ [NetEvent.igCarouselCall acc1.id] ++ ev2 ++ ev3,
               { success := true, postId := some pid,
                 postUrl := some ("https://www.instagram.com/p/" ++ ig_shortcode pid ++ "/"),
                 error := none })

/-- `InstagramService.publish_post`, feed path (`tasks.py` always calls it
with the default `post_type='feed'`): validate the media requirement
locally — returning the `MEDIA_REQUIRED` error before any network request —
then single-media or carousel publication. -/
def instagram_publish (env : RemoteEnv) (acc : Account) (mediaUrls : List String)
    (firstComment : String) : Account × List NetEvent × ServiceResult :=
  if mediaUrls.isEmpty then
    (acc, [], { success := false, postId := none, postUrl := none,
                error := some mediaRequiredMessage })
  else if mediaUrls.length == 1 then
    ig_publish_single env acc (mediaUrls.headD "") firstComment
  else
    ig_publish_carousel env acc mediaUrls firstComment

/-- `FacebookService.publish_post` at the task boundary
(`tasks.publish_to_facebook`): one gateway interaction whose outcome the
environment determines; the Facebook service never updates the account
row. -/
def facebook_publish (env : RemoteEnv) (acc : Account) : List NetEvent × ServiceResult :=
  ([NetEvent.fbCall acc.id],
   match env.fbPublish acc.id with
   | RemoteResult.ok pid purl =>
       { success := true, postId := some pid, postUrl := some purl, error := none }
   | RemoteResult.err msg =>
       { success := false, postId := none, postUrl := none, error := some msg })

/-- `LinkedInService.publish_post` at the task boundary
(`tasks.publish_to_linkedin`): as for Facebook, the LinkedIn service never
updates the account row on any failure, auth failures included. -/
def linkedin_publish (env : RemoteEnv) (acc : Account) : List NetEvent × ServiceResult :=
  ([NetEvent.liCall acc.id],
   match env.liPublish acc.id with
   | RemoteResult.ok pid purl =>
       { success := true, postId := some pid, postUrl := some purl, error := none }
   | RemoteResult.err msg =>
       { success := false, postId := none, postUrl := none, error := some msg })

/-- Content preparation shared by `publish_to_facebook` /
`publish_to_instagram` / `publish_to_linkedin` in `tasks.py`:
`content_override or post.content`, plus hashtags when the post has any. -/
def prepare_content (post : Post) (t : Target) : String :=
  let content := if t.contentOverride == "" then post.content else t.contentOverride
  if post.hashtags.isEmpty then content
  else
    let tags := if t.hashtagsOverride.isEmpty then post.hashtags else t.hashtagsOverride
    content ++ "\n\n" ++ String.intercalate " " (tags.map (fun tag => "#" ++ tag))

/-- `SocialAccount.objects.get(id=...)` over the account list. -/
def findAccount (l : List Account) (i : Nat) : Option Account :=
  l.find? (fun a => a.id == i)

/-- Saving an account row: replace the row(s) with its id. -/
def setAccount (l : List Account) (a : Account) : List Account :=
  l.map (fun b => if b.id == a.id then a else b)

/-- Target lookup by the `(post, account)` unique key. -/
def findTarget (l : List Target) (p a : Nat) : Option Target :=
  l.find? (fun t => t.postId == p && t.accountId == a)

/-- Saving a target row: replace the row(s) with its key. -/
def setTarget (l : List Target) (t : Target) : List Target :=
  l.map (fun u => if u.postId == t.postId && u.accountId == t.accountId then t else u)

/-- The defaults `publish_post` passes to
`SocialPostTarget.objects.get_or_create` (`tasks.py` lines 38-46), plus the
model-level field defaults from `models.py`. -/
def newTarget (p a : Nat) : Target :=
  { postId := p, accountId := a, contentOverride := "", hashtagsOverride := [],
    platformPostId := "", platformUrl := "", status := Status.pending,
    errorMessage := "", publishedAt := none, retryCount := 0, maxRetries := 3,
    nextRetryAt := none }

/-- `get_or_create` on the target table. -/
def getOrCreateTarget (l : List Target) (p a : Nat) : Target × List Target :=
  match findTarget l p a with
  | some t => (t, l)
  | none => (newTarget p a, l ++ [newTarget p a])

/-- The per-platform branch of the `publish_post` loop (`tasks.py` lines
51-74): facebook / instagram / linkedin are delegated to their service,
any other platform takes the mock branch, which fabricates a success
without any network request. -/
def platform_publish (env : RemoteEnv) (post : Post) (acc : Account) :
    Account × List NetEvent × ServiceResult :=
  if acc.platform == "facebook" then
    let (ev, r) := facebook_publish env acc
    (acc, ev, r)
  else if acc.platform == "instagram" then
    instagram_publish env acc post.mediaFiles post.firstComment
  else if acc.platform == "linkedin" then
    let (ev, r) := linkedin_publish env acc
    (acc, ev, r)
  else
    let mockId := "mock_" ++ acc.platform ++ "_" ++ toString post.id
    (acc, [],
     { success := true, postId := some mockId,
       postUrl := some ("https://" ++ acc.platform ++ ".com/posts/" ++ mockId),
       error := none })

/-- State threaded through the `publish_post` account loop. -/
structure DispatchState where
  accounts : List Account
  targets : List Target
  events : List NetEvent
  publishedCount : Nat
  failedCount : Nat
deriving Repr

/-- One iteration of the `publish_post` loop (`tasks.py` lines 33-99): an
unresolvable account id only bumps `failed_count`; otherwise the target is
fetched or created, unconditionally set to `publishing`, the platform
branch runs, and the target is overwritten with the success or failure
outcome.  The caption assembled by `prepare_content` is part of the HTTP
payload sent to the platform; `RemoteEnv` abstracts the platform's
responses keyed by account id (and media url), so the caption does not
influence any outcome in the model and is not threaded through the
branch. -/
def dispatch_step (env : RemoteEnv) (post : Post) (now : Nat)
    (st : DispatchState) (accountId : Nat) : DispatchState :=
  match findAccount st.accounts accountId with
  | none => { st with failedCount := st.failedCount + 1 }
  | some account =>
      let (target0, targets1) := getOrCreateTarget st.targets post.id accountId
      let target1 := { target0 with status := Status.publishing }
      let targets2 := setTarget targets1 target1
      let (acc', ev, res) := platform_publish env post account
      let target2 :=
        if res.success then
          { target1 with
              status := Status.published,
              platformPostId := res.postId.getD "",
              platformUrl := res.postUrl.getD "",
              publishedAt := some now,
              errorMessage := "" }
        else
          { target1 with
              status := Status.failed,
              errorMessage := res.error.getD "Unknown error occurred" }
      { accounts := setAccount st.accounts acc',
        targets := setTarget targets2 target2,
        events := st.events ++ ev,
        publishedCount := st.publishedCount + (if res.success then 1 else 0),
        failedCount := st.failedCount + (if res.success then 0 else 1) }

/-- The aggregate-status rule at the end of `publish_post` (`tasks.py`
lines 101-108), as a pure function of the loop counters. -/
def post_status_from_counts (publishedCount failedCount : Nat) : Status :=
  if publishedCount > 0 && failedCount == 0 then Status.published
  else if publishedCount > 0 then Status.partially_published
  else Status.failed

/-- Result of one run of the `publish_post` task. -/
structure PublishRun where
  post : Post
  accounts : List Account
  targets : List Target
  events : List NetEvent
  publishedCount : Nat
  failedCount : Nat
deriving Repr

/-- The `publish_post` task (`tasks.py` lines 18-125): set the post to
`publishing`, loop over the requested account ids, then derive the post
status from the run's counters (setting `published_at` only in the
all-success branch). -/
def publish_post (env : RemoteEnv) (now : Nat) (post : Post)
    (accounts : List Account) (targets : List Target)
    (accountIds : List Nat) : PublishRun :=
  let post1 := { post with status := Status.publishing }
  let final := accountIds.foldl (dispatch_step env post1 now)
    { accounts := accounts, targets := targets, events := [],
      publishedCount := 0, failedCount := 0 }
  let post2 :=
    if final.publishedCount > 0 && final.failedCount == 0 then
      { post1 with status := Status.published, publishedAt := some now }
    else if final.publishedCount > 0 then
      { post1 with status := Status.partially_published }
    else
      { post1 with status := Status.failed }
  { post := post2, accounts := final.accounts, targets := final.targets,
    events := final.events, publishedCount := final.publishedCount,
    failedCount := final.failedCount }

/-- The task-level retry decision of `publish_post` (`tasks.py` lines
133-143, with `max_retries=3` from the decorator): an exception escaping the
task is re-queued with countdown `60 * 2 ** retries` while `retries <
max_retries`, and otherwise the post is marked failed (`none`). -/
def task_retry_countdown (maxRetries retries : Nat) : Option Nat :=
  if retries < maxRetries then some (60 * 2 ^ retries) else none

/-- Processing status an Instagram media container can report
(`_wait_for_instagram_container`): `FINISHED`, `ERROR`, `IN_PROGRESS`,
`PUBLISHED`, or anything else. -/
inductive ContainerStatus
  | finished
  | procError
  | inProgress
  | publishedStatus
  | unknownStatus
deriving DecidableEq, Repr

/-- One poll of the container status endpoint: a 200 response carrying a
status, or a non-200 response. -/
inductive PollResponse
  | ok (status : ContainerStatus)
  | httpError
deriving DecidableEq, Repr

/-- The fixed sleep between container polls (`time.sleep(2)` in
`facebook_service.py`), in seconds. -/
def igPollInterval : Nat := 2

/-- The default absolute polling deadline (`max_wait_seconds=60`), in
seconds. -/
def igMaxWaitSeconds : Nat := 60

/-- `FacebookService._wait_for_instagram_container`: while elapsed time is
below the deadline, poll the container status; `FINISHED` succeeds,
`ERROR` fails immediately, `IN_PROGRESS`/`PUBLISHED` and HTTP errors sleep
`igPollInterval` seconds and repeat, any other status repeats without
sleeping; once the deadline is reached the wait fails (timeout).
`statusAt n` is the response to the `n`-th poll, `dur n` the wall-clock
seconds the `n`-th HTTP round-trip takes, `fuel` an iteration bound (the
loop itself is bounded only by wall-clock time; `none` means the fuel ran
out first, which `container_poll_bounded` shows cannot happen with enough
fuel as long as every round-trip takes at least one second). -/
def wait_for_instagram_container (statusAt : Nat → PollResponse) (dur : Nat → Nat) :
    Nat → Nat → Nat → Option Bool
  | 0, _, elapsed =>
    if igMaxWaitSeconds ≤ elapsed then some false else none
  | fuel' + 1, n, elapsed =>
    if igMaxWaitSeconds ≤ elapsed then some false
    else
      match statusAt n with
          | PollResponse.ok ContainerStatus.finished => some true
          | PollResponse.ok ContainerStatus.procError => some false
          | PollResponse.ok ContainerStatus.inProgress =>
              wait_for_instagram_container statusAt dur fuel' (n + 1)
                (elapsed + dur n + igPollInterval)
          | PollResponse.ok ContainerStatus.publishedStatus =>
              wait_for_instagram_container statusAt dur fuel' (n + 1)
                (elapsed + dur n + igPollInterval)
          | PollResponse.ok ContainerStatus.unknownStatus =>
              wait_for_instagram_container statusAt dur fuel' (n + 1)
                (elapsed + dur n)
          | PollResponse.httpError =>
              wait_for_instagram_container statusAt dur fuel' (n + 1)
                (elapsed + dur n + igPollInterval)

/-- A `SocialAnalytics` row (canonical fields written by
`FacebookAnalyticsService._update_post_analytics`; `post_target` is a
`OneToOneField`, so `targetId` is a key). -/
structure AnalyticsRow where
  targetId : Nat
  impressions : Nat
  reach : Nat
  clicks : Nat
  likes : Nat
  comments : Nat
  shares : Nat
  videoViews : Nat
  platformMetrics : List (String × Nat)
deriving DecidableEq, Repr

/-- `analytics_data.get(key, 0)` on the metrics dict. -/
def dictGet (d : List (String × Nat)) (k : String) : Nat :=
  match d.find? (fun kv => kv.1 == k) with
  | some kv => kv.2
  | none => 0

/-- The field mapping `_update_post_analytics` applies, identically in its
create defaults and in its update branch (`analytics_service.py` lines
583-607): canonical fields from the dict with default 0, and the whole dict
stored as `platform_metrics`. -/
def analyticsRowFrom (targetId : Nat) (d : List (String × Nat)) : AnalyticsRow :=
  { targetId := targetId,
    impressions := dictGet d "impressions", reach := dictGet d "reach",
    clicks := dictGet d "clicks", likes := dictGet d "likes",
    comments := dictGet d "comments", shares := dictGet d "shares",
    videoViews := dictGet d "video_views", platformMetrics := d }

/-- `AnalyticsService._update_post_analytics`: `get_or_create` on the
`post_target` one-to-one key — overwrite the existing row's canonical
fields if it exists, create it otherwise. -/
def update_post_analytics : List AnalyticsRow → Nat → List (String × Nat) → List AnalyticsRow
  | [], t, d => [analyticsRowFrom t d]
  | r :: rs, t, d =>
      if r.targetId == t then analyticsRowFrom t d :: rs
      else r :: update_post_analytics rs t d

/-- Number of analytics rows recorded for a target. -/
def analyticsCount (rows : List AnalyticsRow) (t : Nat) : Nat :=
  (rows.filter (fun r => r.targetId == t)).length

/-- Response of the `publish` view action (`views.py` `SocialPostViewSet.publish`). -/
inductive PublishViewResponse
  | rejected (message : String)
  | queued (accountIds : List Nat)
deriving DecidableEq, Repr

/-- The `publish` view action (`views.py` lines 441-498): refuse republish
of published posts, refuse an empty request, filter the requested account
ids down to connected accounts with posting enabled, refuse if none
remain, otherwise get-or-create a pending target per valid account and
queue `publish_post` with exactly those ids.  (The `created_by=user`
ownership filter is outside this model.) -/
def publish_view (post : Post) (accounts : List Account) (targets : List Target)
    (requested : List Nat) : PublishViewResponse × List Target :=
  if post.status == Status.published || post.status == Status.partially_published then
    (PublishViewResponse.rejected "Post is already published and cannot be republished.",
     targets)
  else if requested.isEmpty then
    (PublishViewResponse.rejected "No target accounts specified", targets)
  else
    let validIds := (accounts.filter (fun a =>
      requested.contains a.id && a.status == AccountStatus.connected
        && a.postingEnabled)).map (fun a => a.id)
    if validIds.isEmpty then
      (PublishViewResponse.rejected "No valid connected accounts found", targets)
    else
      let targets' := validIds.foldl (fun ts i => (getOrCreateTarget ts post.id i).2) targets
      (PublishViewResponse.queued validIds, targets')

/-- The `cancel` view action (`views.py` lines 601-621): only a `scheduled`
post may be cancelled; cancelling resets the post to `draft`, clears
`scheduled_at`, and runs `post.targets.update(status='cancelled')` — an
unconditional update of every target of the post. -/
def cancel (post : Post) (targets : List Target) : Except String (Post × List Target) :=
  if post.status != Status.scheduled then
    Except.error "Only scheduled posts can be cancelled"
  else
    Except.ok
      ({ post with status := Status.draft, scheduledAt := none },
       targets.map (fun t =>
         if t.postId == post.id then { t with status := Status.cancelled } else t))

/-- The account ids of a post's targets
(`post.targets.values_list('account_id', flat=True)`). -/
def post_target_account_ids (targets : List Target) (p : Nat) : List Nat :=
  (targets.filter (fun t => t.postId == p)).map (fun t => t.accountId)

/-- A post is due for the scheduler sweep: `status == 'scheduled'` and
`scheduled_at <= now` (a NULL `scheduled_at` never matches). -/
def postDue (now : Nat) (p : Post) : Bool :=
  p.status == Status.scheduled &&
    (match p.scheduledAt with
     | some t => decide (t ≤ now)
     | none => false)

/-- How `process_scheduled_posts` handles one post (`tasks.py` lines
158-172): a due post with target accounts is queued for `publish_post`
unchanged; a due post with no target accounts is set directly to `failed`
and nothing is queued; any other post is untouched. -/
def sweep_post (now : Nat) (targets : List Target) (p : Post) :
    Post × Option (Nat × List Nat) :=
  if postDue now p then
    let ids := post_target_account_ids targets p.id
    if ids.isEmpty then ({ p with status := Status.failed }, none)
    else (p, some (p.id, ids))
  else (p, none)

/-- Result of one `process_scheduled_posts` sweep: the updated post table
and the `(post_id, target_account_ids)` dispatch jobs queued.  The sweep
never touches the target table. -/
structure SchedulerResult where
  posts : List Post
  dispatched : List (Nat × List Nat)
deriving DecidableEq, Repr

/-- The `process_scheduled_posts` task (`tasks.py` lines 145-175). -/
def process_scheduled_posts (now : Nat) (posts : List Post) (targets : List Target) :
    SchedulerResult :=
  { posts := posts.map (fun p => (sweep_post now targets p).1),
    dispatched := posts.filterMap (fun p => (sweep_post now targets p).2) }

/-- Whether the publish attempt for one account succeeds, read off the
platform branch.  Used to restate the aggregate-status computation of
`publish_post`. -/
def attempt_ok (env : RemoteEnv) (post : Post) (acc : Account) : Bool :=
  (platform_publish env post acc).2.2.success

/-- Success of the attempt for an account id: an unresolvable id counts as
a failure, exactly as in the `publish_post` loop. -/
def attempt_from (env : RemoteEnv) (post : Post) (accounts : List Account) (i : Nat) : Bool :=
  match findAccount accounts i with
  | none => false
  | some a => attempt_ok env post a

/-! Concrete fixtures for the closed theorems below. -/

/-- A scheduled text post with no media. -/
def fxPost : Post :=
  { id := 10, content := "hello", postType := "text", hashtags := [],
    firstComment := "", mediaFiles := [], status := Status.scheduled,
    scheduledAt := some 5, publishedAt := none }

/-- The same post with one image attached. -/
def fxPostMedia : Post := { fxPost with mediaFiles := ["https://cdn.example/a.jpg"] }

/-- A connected account on a platform without a real adapter. -/
def fxTwitter : Account :=
  { id := 1, platform := "twitter", accessToken := "tk1",
    status := AccountStatus.connected, postingEnabled := true, errorMessage := "" }

/-- A connected LinkedIn account. -/
def fxLinkedIn : Account :=
  { id := 2, platform := "linkedin", accessToken := "tk2",
    status := AccountStatus.connected, postingEnabled := true, errorMessage := "" }

/-- A connected Instagram account. -/
def fxInstagram : Account :=
  { id := 3, platform := "instagram", accessToken := "tk3",
    status := AccountStatus.connected, postingEnabled := true, errorMessage := "" }

/-- A connected Facebook account. -/
def fxFacebook : Account :=
  { id := 4, platform := "facebook", accessToken := "tk4",
    status := AccountStatus.connected, postingEnabled := true, errorMessage := "" }

/-- Remote platforms that accept everything. -/
def fxEnvOk : RemoteEnv :=
  { igCreateContainer := fun _ _ => RemoteResult.ok "igc" "",
    igCreateCarousel := fun _ => RemoteResult.ok "igcar" "",
    igPublishContainer := fun _ => RemoteResult.ok "igpid" "",
    fbPublish := fun _ => RemoteResult.ok "fbpid" "https://facebook.com/fbpid",
    liPublish := fun _ => RemoteResult.ok "lipid" "https://linkedin.com/feed/update/lipid" }

/-- LinkedIn times out (a transient failure), everything else accepts. -/
def fxEnvTimeout : RemoteEnv :=
  { fxEnvOk with liPublish := fun _ => RemoteResult.err "Connection timed out" }

/-- LinkedIn rejects the token with an HTTP 401 message. -/
def fxEnvLiAuth : RemoteEnv :=
  { fxEnvOk with liPublish := fun _ => RemoteResult.err "401 token expired" }

/-- Instagram container creation rejects the access token. -/
def fxEnvIgAuth : RemoteEnv :=
  { fxEnvOk with
      igCreateContainer := fun _ _ => RemoteResult.err "Invalid OAuth access token" }

/-- A target of `fxPost` on `fxTwitter` that already reached `published`. -/
def fxTargetPublished : Target := { newTarget 10 1 with status := Status.published }

/-- The LinkedIn account after its token has been marked expired. -/
def fxExpiredLi : Account := { fxLinkedIn with status := AccountStatus.expired }

/-- Decidable equality for `Except`, so closed facts about `cancel` can be
settled by `decide`. -/
instance instDecEqExcept {ε α : Type} [DecidableEq ε] [DecidableEq α] :
    DecidableEq (Except ε α) := fun x y =>
  match x, y with
  | Except.ok a, Except.ok b =>
      if h : a = b then isTrue (by rw [h])
      else isFalse (fun hc => h (by cases hc; rfl))
  | Except.error a, Except.error b =>
      if h : a = b then isTrue (by rw [h])
      else isFalse (fun hc => h (by cases hc; rfl))
  | Except.ok _, Except.error _ => isFalse (fun hc => Except.noConfusion hc)
  | Except.error _, Except.ok _ => isFalse (fun hc => Except.noConfusion hc)

/-! ## Theorems -/

/-- C10: a scheduled post that is due (`status='scheduled'`,
`scheduled_at <= now`) but has zero targets is set directly to `failed` by
the scheduler sweep: no target is created, nothing is handed to the
dispatcher (no `publish_post` job is queued), and the post's status is
`failed`, not `publishing`.  `sweep_post` returns no target-table change at
all, so no target is created for the post. -/
theorem scheduled_post_no_targets_failed (now : Nat) (targets : List Target) (p : Post)
    (hdue : postDue now p = true)
    (hempty : post_target_account_ids targets p.id = []) :
    sweep_post now targets p = ({ p with status := Status.failed }, none)
    ∧ process_scheduled_posts now [p] targets
        = { posts := [{ p with status := Status.failed }], dispatched := [] }
    ∧ ({ p with status := Status.failed } : Post).status ≠ Status.publishing := by
  have h1 : sweep_post now targets p = ({ p with status := Status.failed }, none) := by
    unfold sweep_post
    rw [hdue]
    simp [hempty]
  refine ⟨h1, ?_, by simp⟩
  unfold process_scheduled_posts
  simp [h1]

/-- Witness for `scheduled_post_no_targets_failed`: the due `fxPost` with an
empty target table. -/
theorem scheduled_post_no_targets_failed_witness :
    postDue 100 fxPost = true
    ∧ post_target_account_ids [] fxPost.id = []
    ∧ sweep_post 100 [] fxPost = ({ fxPost with status := Status.failed }, none) :=
  ⟨by decide, rfl, (scheduled_post_no_targets_failed 100 [] fxPost (by decide) rfl).1⟩

/-- C8 counterexample: the claim says Cancel leaves a target that is already
in a terminal state unchanged, but `cancel` on a scheduled post runs
`post.targets.update(status='cancelled')` over every target of the post: a
target that already reached `published` is overwritten to `cancelled`. -/
theorem cancel_overwrites_terminal_target_cex :
    fxTargetPublished.status = Status.published
    ∧ cancel fxPost [fxTargetPublished]
        = Except.ok ({ fxPost with status := Status.draft, scheduledAt := none },
            [{ fxTargetPublished with status := Status.cancelled }])
    ∧ Status.cancelled ≠ Status.published := by decide

/-- C8 amended: Cancel is only honored for a post in `scheduled` status
(otherwise it is rejected and nothing changes); when honored it resets the
post to `draft`, clears `scheduled_at`, and sets the status of every target
of the post — whatever its previous status, `pending` or not — to
`cancelled`, leaving all other target fields and all targets of other posts
unchanged. -/
theorem cancel_sets_all_targets_cancelled (post : Post) (targets : List Target) :
    (post.status ≠ Status.scheduled →
      cancel post targets = Except.error "Only scheduled posts can be cancelled")
    ∧ (post.status = Status.scheduled →
        cancel post targets
            = Except.ok ({ post with status := Status.draft, scheduledAt := none },
                targets.map (fun t =>
                  if t.postId == post.id then { t with status := Status.cancelled }
                  else t))
          ∧ (∀ t ∈ targets, t.postId = post.id →
              { t with status := Status.cancelled }
                ∈ targets.map (fun t =>
                    if t.postId == post.id then { t with status := Status.cancelled }
                    else t))
          ∧ (∀ t ∈ targets, t.postId ≠ post.id →
              t ∈ targets.map (fun t =>
                    if t.postId == post.id then { t with status := Status.cancelled }
                    else t))) := by
  constructor
  · intro h
    unfold cancel
    have : (post.status != Status.scheduled) = true := by
      simp [bne_iff_ne, h]
    rw [this]
    simp
  · intro h
    have hok : cancel post targets
        = Except.ok ({ post with status := Status.draft, scheduledAt := none },
            targets.map (fun t =>
              if t.postId == post.id then { t with status := Status.cancelled }
              else t)) := by
      unfold cancel
      rw [h]
      simp
    refine ⟨hok, ?_, ?_⟩
    · intro t ht hkey
      have : (if t.postId == post.id then { t with status := Status.cancelled } else t)
          = { t with status := Status.cancelled } := by
        simp [hkey]
      exact this ▸ List.mem_map_of_mem _ ht
    · intro t ht hkey
      have : (if t.postId == post.id then { t with status := Status.cancelled } else t)
          = t := by
        simp [beq_eq_false_iff_ne.mpr hkey]
      exact this ▸ List.mem_map_of_mem _ ht

/-- Witness for `cancel_sets_all_targets_cancelled` on the scheduled
`fxPost` with one pending target. -/
theorem cancel_sets_all_targets_cancelled_witness :
    fxPost.status = Status.scheduled
    ∧ cancel fxPost [newTarget 10 1]
        = Except.ok ({ fxPost with status := Status.draft, scheduledAt := none },
            [{ newTarget 10 1 with status := Status.cancelled }]) := by
  refine ⟨rfl, ?_⟩
  have h := ((cancel_sets_all_targets_cancelled fxPost [newTarget 10 1]).2 rfl).1
  rw [h]
  decide

/-- C7: the analytics upsert is idempotent — re-running
`_update_post_analytics` with the same metrics leaves the analytics table
exactly as after the first run (in particular the canonical fields are
unchanged), and a target that starts with at most one analytics row (the
`OneToOneField` invariant) ends with exactly one row, never two. -/
theorem update_post_analytics_idempotent (rows : List AnalyticsRow) (t : Nat)
    (d : List (String × Nat)) :
    update_post_analytics (update_post_analytics rows t d) t d
        = update_post_analytics rows t d
    ∧ (analyticsCount rows t ≤ 1 →
        analyticsCount (update_post_analytics rows t d) t = 1) := by
  have hcount : ∀ rows : List AnalyticsRow,
      analyticsCount (update_post_analytics rows t d) t
        = if analyticsCount rows t = 0 then 1 else analyticsCount rows t := by
    intro rows
    induction rows with
    | nil => simp [update_post_analytics, analyticsCount, analyticsRowFrom]
    | cons r rs ih =>
      by_cases h : (r.targetId == t) = true
      · simp [update_post_analytics, h, analyticsCount, analyticsRowFrom,
          List.filter] at ih ⊢
      · simp only [update_post_analytics, h, Bool.false_eq_true, if_false]
        simp only [analyticsCount, List.filter, h] at ih ⊢
        exact ih
  constructor
  · induction rows with
    | nil =>
      simp [update_post_analytics, analyticsRowFrom]
    | cons r rs ih =>
      by_cases h : (r.targetId == t) = true
      · simp [update_post_analytics, h, analyticsRowFrom]
      · simp [update_post_analytics, h, ih]
  · intro hle
    rw [hcount rows]
    split <;> omega

/-- Witness for `update_post_analytics_idempotent`: an empty analytics
table and one concrete metrics dict. -/
theorem update_post_analytics_idempotent_witness :
    analyticsCount [] 7 ≤ 1
    ∧ update_post_analytics (update_post_analytics [] 7 [("impressions", 5)]) 7
        [("impressions", 5)] = update_post_analytics [] 7 [("impressions", 5)]
    ∧ analyticsCount (update_post_analytics [] 7 [("impressions", 5)]) 7 = 1 :=
  ⟨by decide,
   (update_post_analytics_idempotent [] 7 [("impressions", 5)]).1,
   (update_post_analytics_idempotent [] 7 [("impressions", 5)]).2 (by decide)⟩

/-- C6: the container polling loop uses the fixed 2-second sleep and the
60-second absolute deadline from the source; a `FINISHED` poll returns
success, an `ERROR` poll returns failure immediately, reaching the deadline
returns failure (timeout) whatever the remaining statuses would be, and —
since every HTTP round-trip takes wall-clock time (`0 < dur k`) — the loop
always terminates: any fuel exceeding the deadline's seconds is enough, so
the `none` (fuel ran out) outcome is unreachable. -/
theorem container_poll_bounded :
    igPollInterval = 2 ∧ igMaxWaitSeconds = 60
    ∧ (∀ statusAt dur, (∀ k, 0 < dur k) →
        ∀ fuel n elapsed, igMaxWaitSeconds < elapsed + fuel →
          (wait_for_instagram_container statusAt dur fuel n elapsed).isSome = true)
    ∧ (∀ statusAt dur fuel n elapsed, igMaxWaitSeconds ≤ elapsed →
        wait_for_instagram_container statusAt dur fuel n elapsed = some false)
    ∧ (∀ statusAt dur fuel n elapsed, elapsed < igMaxWaitSeconds →
        statusAt n = PollResponse.ok ContainerStatus.finished →
        wait_for_instagram_container statusAt dur (fuel + 1) n elapsed = some true)
    ∧ (∀ statusAt dur fuel n elapsed, elapsed < igMaxWaitSeconds →
        statusAt n = PollResponse.ok ContainerStatus.procError →
        wait_for_instagram_container statusAt dur (fuel + 1) n elapsed = some false) := by
  refine ⟨rfl, rfl, ?_, ?_, ?_, ?_⟩
  · intro statusAt dur hdur fuel
    induction fuel with
    | zero =>
      intro n elapsed hlt
      have : igMaxWaitSeconds ≤ elapsed := by
        simp [igMaxWaitSeconds] at hlt ⊢
        omega
      simp [wait_for_instagram_container, this]
    | succ f ih =>
      intro n elapsed hlt
      by_cases hdl : igMaxWaitSeconds ≤ elapsed
      · simp [wait_for_instagram_container, hdl]
      · have hd := hdur n
        rw [wait_for_instagram_container, if_neg hdl]
        cases hs : statusAt n with
        | httpError =>
          exact ih (n + 1) (elapsed + dur n + igPollInterval)
            (by simp [igMaxWaitSeconds, igPollInterval] at hlt ⊢; omega)
        | ok s =>
          cases s with
          | finished => simp
          | procError => simp
          | inProgress =>
            exact ih (n + 1) (elapsed + dur n + igPollInterval)
              (by simp [igMaxWaitSeconds, igPollInterval] at hlt ⊢; omega)
          | publishedStatus =>
            exact ih (n + 1) (elapsed + dur n + igPollInterval)
              (by simp [igMaxWaitSeconds, igPollInterval] at hlt ⊢; omega)
          | unknownStatus =>
            exact ih (n + 1) (elapsed + dur n)
              (by simp [igMaxWaitSeconds] at hlt ⊢; omega)
  · intro statusAt dur fuel n elapsed hdl
    cases fuel <;> simp [wait_for_instagram_container, hdl]
  · intro statusAt dur fuel n elapsed hlt hs
    rw [wait_for_instagram_container, if_neg (by omega), hs]
  · intro statusAt dur fuel n elapsed hlt hs
    rw [wait_for_instagram_container, if_neg (by omega), hs]

/-- Witness for `container_poll_bounded`: a container that is always
`IN_PROGRESS` still terminates (with the timeout failure), and first-poll
`FINISHED` / `ERROR` containers resolve immediately. -/
theorem container_poll_bounded_witness :
    (wait_for_instagram_container (fun _ => PollResponse.ok ContainerStatus.inProgress)
        (fun _ => 1) 61 0 0).isSome = true
    ∧ wait_for_instagram_container (fun _ => PollResponse.ok ContainerStatus.finished)
        (fun _ => 1) 5 0 60 = some false
    ∧ wait_for_instagram_container (fun _ => PollResponse.ok ContainerStatus.finished)
        (fun _ => 1) 5 0 0 = some true
    ∧ wait_for_instagram_container (fun _ => PollResponse.ok ContainerStatus.procError)
        (fun _ => 1) 5 0 0 = some false :=
  ⟨container_poll_bounded.2.2.1 _ _ (fun _ => by decide) 61 0 0 (by decide),
   container_poll_bounded.2.2.2.1 _ _ 5 0 60 (by decide),
   container_poll_bounded.2.2.2.2.1 _ _ 4 0 0 (by decide) rfl,
   container_poll_bounded.2.2.2.2.2 _ _ 4 0 0 (by decide) rfl⟩

/-! Helper lemmas about the dispatch embedding, shared by several claims. -/

lemma findAccount_singleton (a : Account) : findAccount [a] a.id = some a := by
  simp [findAccount, List.find?]

lemma platform_publish_li_ok (env : RemoteEnv) (post : Post) (acc : Account)
    (pid purl : String) (hpl : acc.platform = "linkedin")
    (henv : env.liPublish acc.id = RemoteResult.ok pid purl) :
    platform_publish env post acc
      = (acc, [NetEvent.liCall acc.id],
         { success := true, postId := some pid, postUrl := some purl, error := none }) := by
  unfold platform_publish linkedin_publish
  rw [hpl, henv]
  rfl

lemma platform_publish_li_err (env : RemoteEnv) (post : Post) (acc : Account)
    (msg : String) (hpl : acc.platform = "linkedin")
    (henv : env.liPublish acc.id = RemoteResult.err msg) :
    platform_publish env post acc
      = (acc, [NetEvent.liCall acc.id],
         { success := false, postId := none, postUrl := none, error := some msg }) := by
  unfold platform_publish linkedin_publish
  rw [hpl, henv]
  rfl

lemma platform_publish_fb_ok (env : RemoteEnv) (post : Post) (acc : Account)
    (pid purl : String) (hpl : acc.platform = "facebook")
    (henv : env.fbPublish acc.id = RemoteResult.ok pid purl) :
    platform_publish env post acc
      = (acc, [NetEvent.fbCall acc.id],
         { success := true, postId := some pid, postUrl := some purl, error := none }) := by
  unfold platform_publish facebook_publish
  rw [hpl, henv]
  rfl

lemma platform_publish_fb_err (env : RemoteEnv) (post : Post) (acc : Account)
    (msg : String) (hpl : acc.platform = "facebook")
    (henv : env.fbPublish acc.id = RemoteResult.err msg) :
    platform_publish env post acc
      = (acc, [NetEvent.fbCall acc.id],
         { success := false, postId := none, postUrl := none, error := some msg }) := by
  unfold platform_publish facebook_publish
  rw [hpl, henv]
  rfl

lemma platform_publish_ig_nomedia (env : RemoteEnv) (post : Post) (acc : Account)
    (hpl : acc.platform = "instagram") (hm : post.mediaFiles = []) :
    platform_publish env post acc
      = (acc, [],
         { success := false, postId := none, postUrl := none,
           error := some mediaRequiredMessage }) := by
  unfold platform_publish instagram_publish
  rw [hpl, hm]
  simp

lemma platform_publish_ig_create_err (env : RemoteEnv) (post : Post) (acc : Account)
    (u msg : String) (hpl : acc.platform = "instagram") (hm : post.mediaFiles = [u])
    (henv : env.igCreateContainer acc.id u = RemoteResult.err msg) :
    platform_publish env post acc
      = ((if isTokenError msg then markTokenExpired acc msg else acc),
         [NetEvent.igCreateCall acc.id],
         { success := false, postId := none, postUrl := none,
           error := some ("Failed to create media container: " ++ msg) }) := by
  unfold platform_publish instagram_publish ig_publish_single ig_create_media_container
  rw [hpl, hm]
  simp [henv]

lemma findTarget_singleton (t : Target) : findTarget [t] t.postId t.accountId = some t := by
  simp [findTarget, List.find?]

lemma platform_publish_mock (env : RemoteEnv) (post : Post) (acc : Account)
    (h1 : acc.platform ≠ "facebook") (h2 : acc.platform ≠ "instagram")
    (h3 : acc.platform ≠ "linkedin") :
    platform_publish env post acc
      = (acc, [],
         { success := true,
           postId := some ("mock_" ++ acc.platform ++ "_" ++ toString post.id),
           postUrl := some ("https://" ++ acc.platform ++ ".com/posts/"
             ++ ("mock_" ++ acc.platform ++ "_" ++ toString post.id)),
           error := none }) := by
  unfold platform_publish
  rw [beq_eq_false_iff_ne.mpr h1, beq_eq_false_iff_ne.mpr h2,
    beq_eq_false_iff_ne.mpr h3]
  simp

/-- C1 counterexample: dispatching `fxPost` to the mock-platform account 1
(which succeeds) together with the nonexistent account id 99 leaves the
post with exactly one target, and that target is `published` — per the
claim, all targets published means the post must be `published` — yet the
post's status is `partially_published`, because the unresolvable id was
counted as a failure without any target row.  The aggregate is therefore
not a function of the targets' statuses. -/
theorem post_status_not_function_of_targets_cex :
    (publish_post fxEnvOk 100 fxPost [fxTwitter] [] [1, 99]).targets
      = [{ newTarget 10 1 with
            status := Status.published,
            platformPostId := "mock_twitter_10",
            platformUrl := "https://twitter.com/posts/mock_twitter_10",
            publishedAt := some 100 }]
    ∧ (publish_post fxEnvOk 100 fxPost [fxTwitter] [] [1, 99]).post.status
      = Status.partially_published
    ∧ Status.partially_published ≠ Status.published := by decide

/-- C2 counterexample: a LinkedIn target whose gateway call fails with a
transient network timeout, while `retry_count = 0 < max_retries = 3`.  The
claim mandates a retry: `next_retry_at = now + 60s`, `retry_count = 1`,
status back to `pending`.  The code instead marks the target terminally
`failed` and never touches `retry_count`/`next_retry_at`. -/
theorem transient_failure_not_retried_cex :
    fxEnvTimeout.liPublish 2 = RemoteResult.err "Connection timed out"
    ∧ (newTarget 10 2).retryCount = 0
    ∧ (newTarget 10 2).maxRetries = 3
    ∧ (publish_post fxEnvTimeout 100 fxPost [fxLinkedIn] [newTarget 10 2] [2]).targets
        = [{ newTarget 10 2 with
              status := Status.failed,
              errorMessage := "Connection timed out" }]
    ∧ Status.failed ≠ Status.pending := by decide

/-- C2 amended: a per-target gateway failure is terminal on the spot —
whatever the message, the target goes straight to `failed` with
`retry_count` and `next_retry_at` untouched (no per-target retry exists in
the code).  The only retry mechanism is at the whole-task level
(`tasks.py` lines 130-143): an exception escaping `publish_post` re-queues
the task with countdown `60 * 2 ** retries` — successive delays 60s, 120s,
240s — and the 4th failure (`retries = max_retries = 3`) stops retrying
and marks the post failed. -/
theorem target_failure_terminal_and_task_backoff
    (env : RemoteEnv) (now : Nat) (post : Post) (acc : Account) (msg : String)
    (hpl : acc.platform = "linkedin")
    (henv : env.liPublish acc.id = RemoteResult.err msg) :
    (publish_post env now post [acc] [newTarget post.id acc.id] [acc.id]).targets
        = [{ newTarget post.id acc.id with
              status := Status.failed,
              errorMessage := msg }]
    ∧ (publish_post env now post [acc] [newTarget post.id acc.id] [acc.id]).post.status
        = Status.failed
    ∧ task_retry_countdown 3 0 = some 60
    ∧ task_retry_countdown 3 1 = some 120
    ∧ task_retry_countdown 3 2 = some 240
    ∧ task_retry_countdown 3 3 = none := by
  have h2 := platform_publish_li_err env { post with status := Status.publishing }
    acc msg hpl henv
  refine ⟨?_, ?_, rfl, rfl, rfl, rfl⟩
  · simp [publish_post, dispatch_step, findAccount_singleton, h2,
      getOrCreateTarget, findTarget, setTarget, List.find?, newTarget]
  · simp [publish_post, dispatch_step, findAccount_singleton, h2,
      getOrCreateTarget, findTarget, setTarget, List.find?, newTarget]

/-- Witness for `target_failure_terminal_and_task_backoff`: the LinkedIn
timeout fixture. -/
theorem target_failure_terminal_and_task_backoff_witness :
    fxLinkedIn.platform = "linkedin"
    ∧ fxEnvTimeout.liPublish fxLinkedIn.id = RemoteResult.err "Connection timed out"
    ∧ (publish_post fxEnvTimeout 100 fxPost [fxLinkedIn]
          [newTarget fxPost.id fxLinkedIn.id] [fxLinkedIn.id]).targets
        = [{ newTarget fxPost.id fxLinkedIn.id with
              status := Status.failed,
              errorMessage := "Connection timed out" }] :=
  ⟨rfl, rfl,
   (target_failure_terminal_and_task_backoff fxEnvTimeout 100 fxPost fxLinkedIn
      "Connection timed out" rfl rfl).1⟩

/-- C4 counterexample: a LinkedIn gateway call that fails with an HTTP 401
"token expired" message — an auth error by the claim's own example — leaves
the account untouched: its status is still `connected`, not `expired`.
Only the Instagram service ever marks accounts expired. -/
theorem linkedin_auth_error_account_not_expired_cex :
    fxEnvLiAuth.liPublish fxLinkedIn.id = RemoteResult.err "401 token expired"
    ∧ (publish_post fxEnvLiAuth 100 fxPost [fxLinkedIn] [] [2]).accounts = [fxLinkedIn]
    ∧ fxLinkedIn.status = AccountStatus.connected
    ∧ AccountStatus.connected ≠ AccountStatus.expired := by decide

/-- C5 counterexample: invoking the dispatch task twice on the same
(post, account) pair — the back-to-back schedule, which is one admissible
interleaving of two concurrent invocations — produces a gateway call in
each run: two publish attempts in total, and the second run moves the
already-`published` target through `publishing` to `published` again.
Nothing rejects the second attempt: there is no compare-and-swap on the
`pending` status anywhere in the transition. -/
theorem double_dispatch_two_gateway_calls_cex :
    (publish_post fxEnvOk 100 fxPost [fxLinkedIn] [] [2]).events = [NetEvent.liCall 2]
    ∧ (publish_post fxEnvOk 100
          (publish_post fxEnvOk 100 fxPost [fxLinkedIn] [] [2]).post
          (publish_post fxEnvOk 100 fxPost [fxLinkedIn] [] [2]).accounts
          (publish_post fxEnvOk 100 fxPost [fxLinkedIn] [] [2]).targets
          [2]).events = [NetEvent.liCall 2]
    ∧ (publish_post fxEnvOk 100 fxPost [fxLinkedIn] [] [2]).targets.map Target.status
        = [Status.published]
    ∧ (publish_post fxEnvOk 100
          (publish_post fxEnvOk 100 fxPost [fxLinkedIn] [] [2]).post
          (publish_post fxEnvOk 100 fxPost [fxLinkedIn] [] [2]).accounts
          (publish_post fxEnvOk 100 fxPost [fxLinkedIn] [] [2]).targets
          [2]).targets.map Target.status = [Status.published] := by decide

/-! Key-preservation lemmas: none of the service functions changes the id
or platform of the account row it threads through, and every network event
a service emits is tagged with the id of the account it was called for. -/

lemma ig_create_media_container_fst (env : RemoteEnv) (acc : Account) (u : String) :
    (ig_create_media_container env acc u).1.id = acc.id
      ∧ (ig_create_media_container env acc u).1.platform = acc.platform := by
  unfold ig_create_media_container
  cases env.igCreateContainer acc.id u with
  | ok cid purl => exact ⟨rfl, rfl⟩
  | err msg =>
    by_cases h : isTokenError msg = true <;> simp [h, markTokenExpired]

lemma ig_publish_media_container_fst (env : RemoteEnv) (acc : Account) :
    (ig_publish_media_container env acc).1.id = acc.id
      ∧ (ig_publish_media_container env acc).1.platform = acc.platform := by
  unfold ig_publish_media_container
  cases env.igPublishContainer acc.id with
  | ok cid purl => exact ⟨rfl, rfl⟩
  | err msg =>
    by_cases h : isTokenError msg = true <;> simp [h, markTokenExpired]

lemma ig_create_containers_fst (env : RemoteEnv) :
    ∀ (urls : List String) (acc : Account),
      (ig_create_containers env acc urls).1.id = acc.id
        ∧ (ig_create_containers env acc urls).1.platform = acc.platform := by
  intro urls
  induction urls with
  | nil => intro acc; exact ⟨rfl, rfl⟩
  | cons u rest ih =>
    intro acc
    unfold ig_create_containers ig_create_media_container
    cases henv : env.igCreateContainer acc.id u with
    | err msg =>
      by_cases h : isTokenError msg = true <;> simp [h, markTokenExpired]
    | ok cid purl =>
      rcases h2 : ig_create_containers env acc rest with ⟨acc2, ev2, r2⟩
      have hf2 := ih acc
      rw [h2] at hf2
      simp only [Prod.fst] at hf2
      simp [h2, hf2.1, hf2.2]

lemma ig_publish_single_fst (env : RemoteEnv) (acc : Account) (u fc : String) :
    (ig_publish_single env acc u fc).1.id = acc.id
      ∧ (ig_publish_single env acc u fc).1.platform = acc.platform := by
  unfold ig_publish_single ig_create_media_container ig_publish_media_container
  cases h1 : env.igCreateContainer acc.id u with
  | err msg =>
    by_cases h : isTokenError msg = true <;> simp [h, markTokenExpired]
  | ok cid purl =>
    cases h2 : env.igPublishContainer acc.id with
    | err msg =>
      by_cases h : isTokenError msg = true <;> simp [h2, h, markTokenExpired]
    | ok pid purl2 => simp [h2]

lemma ig_publish_carousel_fst (env : RemoteEnv) (acc : Account) (urls : List String)
    (fc : String) :
    (ig_publish_carousel env acc urls fc).1.id = acc.id
      ∧ (ig_publish_carousel env acc urls fc).1.platform = acc.platform := by
  unfold ig_publish_carousel
  rcases h1 : ig_create_containers env acc urls with ⟨acc1, ev1, r1⟩
  have hf1 := ig_create_containers_fst env urls acc
  rw [h1] at hf1
  simp only [Prod.fst] at hf1
  cases r1 with
  | error e => simpa using hf1
  | ok cids =>
    cases h2 : env.igCreateCarousel acc1.id with
    | err msg =>
      simp only [h2]
      simpa using hf1
    | ok cid purl =>
      unfold ig_publish_media_container
      cases h3 : env.igPublishContainer acc1.id with
      | err msg =>
        by_cases h : isTokenError msg = true <;>
          simp [h2, h3, h, markTokenExpired] <;>
          exact ⟨hf1.1, hf1.2⟩
      | ok pid purl2 =>
        simp [h2, h3]
        exact ⟨hf1.1, hf1.2⟩

lemma ig_create_media_container_events (env : RemoteEnv) (acc : Account) (u : String) :
    ∀ e ∈ (ig_create_media_container env acc u).2.1, NetEvent.accountId e = acc.id := by
  unfold ig_create_media_container
  cases henv : env.igCreateContainer acc.id u with
  | ok cid purl =>
    intro e he
    simp at he
    simp [he, NetEvent.accountId]
  | err msg =>
    intro e he
    simp at he
    simp [he, NetEvent.accountId]

lemma ig_publish_media_container_events (env : RemoteEnv) (acc : Account) :
    ∀ e ∈ (ig_publish_media_container env acc).2.1, NetEvent.accountId e = acc.id := by
  unfold ig_publish_media_container
  cases henv : env.igPublishContainer acc.id with
  | ok cid purl =>
    intro e he
    simp at he
    simp [he, NetEvent.accountId]
  | err msg =>
    intro e he
    simp at he
    simp [he, NetEvent.accountId]

lemma ig_create_containers_events (env : RemoteEnv) :
    ∀ (urls : List String) (acc : Account),
      ∀ e ∈ (ig_create_containers env acc urls).2.1, NetEvent.accountId e = acc.id := by
  intro urls
  induction urls with
  | nil => intro acc e he; simp [ig_create_containers] at he
  | cons u rest ih =>
    intro acc
    unfold ig_create_containers ig_create_media_container
    cases henv : env.igCreateContainer acc.id u with
    | err msg =>
      intro e he
      simp at he
      simp [he, NetEvent.accountId]
    | ok cid purl =>
      rcases h2 : ig_create_containers env acc rest with ⟨acc2, ev2, r2⟩
      intro e he
      simp [h2] at he
      rcases he with he | he
      · simp [he, NetEvent.accountId]
      · have := ih acc e
        rw [h2] at this
        exact this (by simpa using he)

lemma ig_publish_single_events (env : RemoteEnv) (acc : Account) (u fc : String) :
    ∀ e ∈ (ig_publish_single env acc u fc).2.1, NetEvent.accountId e = acc.id := by
  unfold ig_publish_single ig_create_media_container ig_publish_media_container
  cases h1 : env.igCreateContainer acc.id u with
  | err msg =>
    intro e he
    simp at he
    simp [he, NetEvent.accountId]
  | ok cid purl =>
    cases h2 : env.igPublishContainer acc.id with
    | err msg =>
      intro e he
      simp [h2] at he
      rcases he with he | he <;> simp [he, NetEvent.accountId]
    | ok pid purl2 =>
      intro e he
      by_cases hfc : fc = ""
      · simp [h2, hfc] at he
        rcases he with he | he <;> simp [he, NetEvent.accountId]
      · simp [h2, hfc] at he
        rcases he with he | he | he <;> simp [he, NetEvent.accountId]

lemma ig_publish_carousel_events (env : RemoteEnv) (acc : Account) (urls : List String)
    (fc : String) :
    ∀ e ∈ (ig_publish_carousel env acc urls fc).2.1, NetEvent.accountId e = acc.id := by
  unfold ig_publish_carousel
  rcases h1 : ig_create_containers env acc urls with ⟨acc1, ev1, r1⟩
  have hev1 : ∀ e ∈ ev1, NetEvent.accountId e = acc.id := by
    intro e he
    have := ig_create_containers_events env urls acc e
    rw [h1] at this
    exact this (by simpa using he)
  have hf1 := ig_create_containers_fst env urls acc
  rw [h1] at hf1
  simp only [Prod.fst] at hf1
  cases r1 with
  | error e2 =>
    intro e he
    simp at he
    exact hev1 e he
  | ok cids =>
    cases h2 : env.igCreateCarousel acc1.id with
    | err msg =>
      intro e he
      simp [h2] at he
      rcases he with he | he
      · exact hev1 e he
      · simp [he, NetEvent.accountId, hf1.1]
    | ok cid purl =>
      rcases h3 : ig_publish_media_container env acc1 with ⟨acc2, ev2, r2⟩
      have hev2 : ∀ e ∈ ev2, NetEvent.accountId e = acc.id := by
        intro e he
        have := ig_publish_media_container_events env acc1 e
        rw [h3] at this
        exact (this (by simpa using he)).trans hf1.1
      have hf2 := ig_publish_media_container_fst env acc1
      rw [h3] at hf2
      simp only [Prod.fst] at hf2
      cases r2 with
      | error e2 =>
        intro e he
        simp [h2, h3] at he
        rcases he with he | he | he
        · exact hev1 e he
        · simp [he, NetEvent.accountId, hf1.1]
        · exact hev2 e he
      | ok pid =>
        intro e he
        by_cases hfc : fc = ""
        · simp [h2, h3, hfc] at he
          rcases he with he | he | he
          · exact hev1 e he
          · simp [he, NetEvent.accountId, hf1.1]
          · exact hev2 e he
        · simp [h2, h3, hfc] at he
          rcases he with he | he | he | he
          · exact hev1 e he
          · simp [he, NetEvent.accountId, hf1.1]
          · exact hev2 e he
          · simp [he, NetEvent.accountId, hf2.1, hf1.1]

lemma ig_create_containers_snd (env : RemoteEnv) :
    ∀ (urls : List String) (a b : Account), a.id = b.id →
      (ig_create_containers env a urls).2 = (ig_create_containers env b urls).2 := by
  intro urls
  induction urls with
  | nil => intro a b hid; rfl
  | cons u rest ih =>
    intro a b hid
    unfold ig_create_containers ig_create_media_container
    rw [hid]
    cases henv : env.igCreateContainer b.id u with
    | err msg => simp
    | ok cid purl =>
      rcases ha : ig_create_containers env a rest with ⟨a2, ev2, r2⟩
      rcases hb : ig_create_containers env b rest with ⟨b2, ev2', r2'⟩
      have h := ih a b hid
      rw [ha, hb] at h
      have h' : (ev2, r2) = (ev2', r2') := h
      have he : ev2 = ev2' := congrArg Prod.fst h'
      have hr : r2 = r2' := congrArg Prod.snd h'
      simp [ha, hb, he, hr]

lemma ig_publish_single_snd (env : RemoteEnv) (u fc : String) (a b : Account)
    (hid : a.id = b.id) :
    (ig_publish_single env a u fc).2 = (ig_publish_single env b u fc).2 := by
  unfold ig_publish_single ig_create_media_container ig_publish_media_container
  rw [hid]
  cases h1 : env.igCreateContainer b.id u with
  | err msg => simp
  | ok cid purl =>
    cases h2 : env.igPublishContainer b.id with
    | err msg => simp [hid, h2]
    | ok pid purl2 => simp [hid, h2]

lemma ig_publish_carousel_snd (env : RemoteEnv) (urls : List String) (fc : String)
    (a b : Account) (hid : a.id = b.id) :
    (ig_publish_carousel env a urls fc).2 = (ig_publish_carousel env b urls fc).2 := by
  unfold ig_publish_carousel ig_publish_media_container
  rcases ha : ig_create_containers env a urls with ⟨a1, ev1, r1⟩
  rcases hb : ig_create_containers env b urls with ⟨b1, ev1', r1'⟩
  have h := ig_create_containers_snd env urls a b hid
  rw [ha, hb] at h
  have h' : (ev1, r1) = (ev1', r1') := h
  have hev : ev1 = ev1' := congrArg Prod.fst h'
  have hr : r1 = r1' := congrArg Prod.snd h'
  have hfa := ig_create_containers_fst env urls a
  rw [ha] at hfa
  have ha1 : a1.id = a.id := hfa.1
  have hfb := ig_create_containers_fst env urls b
  rw [hb] at hfb
  have hb1 : b1.id = b.id := hfb.1
  subst hev
  subst hr
  cases r1 with
  | error e => simp
  | ok cids =>
    have ha1b : a1.id = b.id := ha1.trans hid
    dsimp only
    rw [ha1b, hb1]
    cases h2 : env.igCreateCarousel b.id with
    | err msg => simp
    | ok cid purl =>
      cases h3 : env.igPublishContainer b.id with
      | err msg => simp [h2, h3]
      | ok pid purl2 => simp [h2, h3, ha1b, hb1]

lemma platform_publish_snd (env : RemoteEnv) (post : Post) (a b : Account)
    (hid : a.id = b.id) (hpl : a.platform = b.platform) :
    (platform_publish env post a).2 = (platform_publish env post b).2 := by
  unfold platform_publish instagram_publish facebook_publish linkedin_publish
  rw [hid, hpl]
  by_cases h1 : (b.platform == "facebook") = true
  · cases henv : env.fbPublish b.id <;> simp [h1, henv]
  · simp only [h1, Bool.false_eq_true, if_false]
    by_cases h2 : (b.platform == "instagram") = true
    · simp only [h2, if_true]
      by_cases hm : post.mediaFiles.isEmpty = true
      · simp [hm]
      · simp only [hm, Bool.false_eq_true, if_false]
        by_cases hl : (post.mediaFiles.length == 1) = true
        · simp only [hl, if_true]
          exact ig_publish_single_snd env (post.mediaFiles.headD "") post.firstComment
            a b hid
        · simp only [hl, Bool.false_eq_true, if_false]
          exact ig_publish_carousel_snd env post.mediaFiles post.firstComment a b hid
    · simp only [h2, Bool.false_eq_true, if_false]
      by_cases h3 : (b.platform == "linkedin") = true
      · cases henv : env.liPublish b.id <;> simp [h3, henv]
      · simp [h3]

lemma attempt_ok_key (env : RemoteEnv) (post : Post) (a b : Account)
    (hid : a.id = b.id) (hpl : a.platform = b.platform) :
    attempt_ok env post a = attempt_ok env post b := by
  unfold attempt_ok
  rw [platform_publish_snd env post a b hid hpl]

lemma findAccount_setAccount (l : List Account) (a' : Account) (j : Nat) :
    findAccount (setAccount l a') j
      = (findAccount l j).map (fun b => if b.id == a'.id then a' else b) := by
  induction l with
  | nil => rfl
  | cons c l ih =>
    unfold setAccount findAccount at ih ⊢
    rw [List.map_cons]
    by_cases hc : (c.id == a'.id) = true
    · have hce : c.id = a'.id := eq_of_beq hc
      rw [if_pos hc]
      by_cases hj : (c.id == j) = true
      · have ha'j : (a'.id == j) = true := by rw [← hce]; exact hj
        rw [@List.find?_cons_of_pos _ (fun x => x.id == j) a' _ ha'j,
          @List.find?_cons_of_pos _ (fun x => x.id == j) c _ hj]
        rw [Option.map, if_pos hc]
      · have ha'j : ¬ (a'.id == j) = true := by rw [← hce]; exact hj
        rw [@List.find?_cons_of_neg _ (fun x => x.id == j) a' _ ha'j,
          @List.find?_cons_of_neg _ (fun x => x.id == j) c _ hj]
        exact ih
    · rw [if_neg hc]
      by_cases hj : (c.id == j) = true
      · rw [@List.find?_cons_of_pos _ (fun x => x.id == j) c _ hj,
          @List.find?_cons_of_pos _ (fun x => x.id == j) c _ hj]
        rw [Option.map, if_neg hc]
      · rw [@List.find?_cons_of_neg _ (fun x => x.id == j) c _ hj,
          @List.find?_cons_of_neg _ (fun x => x.id == j) c _ hj]
        exact ih

lemma attempt_from_setAccount (env : RemoteEnv) (post : Post) (l : List Account)
    (i : Nat) (a : Account) (hfind : findAccount l i = some a)
    (a' : Account) (hid : a'.id = a.id) (hpl : a'.platform = a.platform) (j : Nat) :
    attempt_from env post (setAccount l a') j = attempt_from env post l j := by
  unfold attempt_from
  rw [findAccount_setAccount]
  cases h : findAccount l j with
  | none => rfl
  | some b =>
    simp only [Option.map]
    by_cases hb : (b.id == a'.id) = true
    · have hbe : b.id = a'.id := eq_of_beq hb
      have hfind' : l.find? (fun x => x.id == i) = some a := hfind
      have h' : l.find? (fun x => x.id == j) = some b := h
      have haj : a.id = i := eq_of_beq (@List.find?_some _ (fun x => x.id == i) a l hfind')
      have hbj : b.id = j := eq_of_beq (@List.find?_some _ (fun x => x.id == j) b l h')
      have hji : j = i := by omega
      subst hji
      have hba : b = a := Option.some.inj (h.symm.trans hfind)
      subst hba
      simp only [hb, if_true]
      exact attempt_ok_key env post a' b hid hpl
    · simp [hb]

lemma platform_publish_events (env : RemoteEnv) (post : Post) (acc : Account) :
    ∀ e ∈ (platform_publish env post acc).2.1, NetEvent.accountId e = acc.id := by
  unfold platform_publish instagram_publish facebook_publish linkedin_publish
  by_cases h1 : (acc.platform == "facebook") = true
  · cases henv : env.fbPublish acc.id <;> simp [h1, henv, NetEvent.accountId]
  · simp only [h1, Bool.false_eq_true, if_false]
    by_cases h2 : (acc.platform == "instagram") = true
    · simp only [h2, if_true]
      by_cases hm : post.mediaFiles.isEmpty = true
      · simp [hm]
      · simp only [hm, Bool.false_eq_true, if_false]
        by_cases hl : (post.mediaFiles.length == 1) = true
        · simp only [hl, if_true]
          exact ig_publish_single_events env acc _ _
        · simp only [hl, Bool.false_eq_true, if_false]
          exact ig_publish_carousel_events env acc _ _
    · simp only [h2, Bool.false_eq_true, if_false]
      by_cases h3 : (acc.platform == "linkedin") = true
      · cases henv : env.liPublish acc.id <;> simp [h3, henv, NetEvent.accountId]
      · simp [h3]

lemma dispatch_step_events (env : RemoteEnv) (post : Post) (now : Nat)
    (st : DispatchState) (i : Nat) :
    ∀ e ∈ (dispatch_step env post now st i).events,
      e ∈ st.events ∨ NetEvent.accountId e = i := by
  unfold dispatch_step
  cases hfind : findAccount st.accounts i with
  | none => intro e he; exact Or.inl he
  | some a =>
    have hfind' : st.accounts.find? (fun b => b.id == i) = some a := hfind
    have hb : (a.id == i) = true :=
      @List.find?_some _ (fun b => b.id == i) a st.accounts hfind'
    have hid : a.id = i := eq_of_beq hb
    rcases hg : getOrCreateTarget st.targets post.id i with ⟨target0, targets1⟩
    rcases hp : platform_publish env post a with ⟨acc', ev, res⟩
    have hev := platform_publish_events env post a
    rw [hp] at hev
    intro e he
    simp only [hg, hp] at he
    rcases List.mem_append.mp he with h | h
    · exact Or.inl h
    · exact Or.inr ((hev e h).trans hid)

lemma dispatch_events_sub (env : RemoteEnv) (post : Post) (now : Nat) :
    ∀ (ids : List Nat) (st : DispatchState),
      ∀ e ∈ (ids.foldl (dispatch_step env post now) st).events,
        e ∈ st.events ∨ NetEvent.accountId e ∈ ids := by
  intro ids
  induction ids with
  | nil => intro st e he; exact Or.inl he
  | cons i rest ih =>
    intro st e he
    rcases ih (dispatch_step env post now st i) e he with h | h
    · rcases dispatch_step_events env post now st i e h with h' | h'
      · exact Or.inl h'
      · exact Or.inr (by simp [h'])
    · exact Or.inr (List.mem_cons_of_mem _ h)

lemma publish_post_events_ids (env : RemoteEnv) (now : Nat) (post : Post)
    (accounts : List Account) (targets : List Target) (ids : List Nat) :
    ∀ e ∈ (publish_post env now post accounts targets ids).events,
      NetEvent.accountId e ∈ ids := by
  intro e he
  have h2 : (publish_post env now post accounts targets ids).events
      = (ids.foldl (dispatch_step env { post with status := Status.publishing } now)
          { accounts := accounts, targets := targets, events := [],
            publishedCount := 0, failedCount := 0 }).events := rfl
  rw [h2] at he
  rcases dispatch_events_sub env { post with status := Status.publishing } now ids
      { accounts := accounts, targets := targets, events := [],
        publishedCount := 0, failedCount := 0 } e he with h | h
  · simp at h
  · exact h

lemma platform_publish_fst (env : RemoteEnv) (post : Post) (acc : Account) :
    (platform_publish env post acc).1.id = acc.id
      ∧ (platform_publish env post acc).1.platform = acc.platform := by
  unfold platform_publish instagram_publish
  by_cases h1 : (acc.platform == "facebook") = true
  · simp [h1]
  · simp only [h1, Bool.false_eq_true, if_false]
    by_cases h2 : (acc.platform == "instagram") = true
    · simp only [h2, if_true]
      by_cases hm : post.mediaFiles.isEmpty = true
      · simp [hm]
      · simp only [hm, Bool.false_eq_true, if_false]
        by_cases hl : (post.mediaFiles.length == 1) = true
        · simp only [hl, if_true]
          exact ig_publish_single_fst env acc _ _
        · simp only [hl, Bool.false_eq_true, if_false]
          exact ig_publish_carousel_fst env acc _ _
    · simp only [h2, Bool.false_eq_true, if_false]
      by_cases h3 : (acc.platform == "linkedin") = true
      · simp [h3]
      · simp [h3]

lemma countP_not_add (p : Nat → Bool) (l : List Nat) :
    l.countP p + l.countP (fun i => !(p i)) = l.length := by
  induction l with
  | nil => rfl
  | cons x xs ih =>
    by_cases h : p x = true <;> simp [List.countP_cons, h] <;> omega

lemma dispatch_step_spec (env : RemoteEnv) (post : Post) (now : Nat)
    (st : DispatchState) (i : Nat) :
    (dispatch_step env post now st i).publishedCount
        = st.publishedCount + (if attempt_from env post st.accounts i then 1 else 0)
    ∧ (dispatch_step env post now st i).failedCount
        = st.failedCount + (if attempt_from env post st.accounts i then 0 else 1)
    ∧ ∀ j, attempt_from env post (dispatch_step env post now st i).accounts j
        = attempt_from env post st.accounts j := by
  unfold dispatch_step
  cases hfind : findAccount st.accounts i with
  | none =>
    refine ⟨?_, ?_, ?_⟩ <;> simp [attempt_from, hfind]
  | some a =>
    rcases hg : getOrCreateTarget st.targets post.id i with ⟨target0, targets1⟩
    rcases hp : platform_publish env post a with ⟨acc', ev, res⟩
    have hsucc : attempt_from env post st.accounts i = res.success := by
      unfold attempt_from attempt_ok
      rw [hfind]
      dsimp only
      rw [hp]
    have hfst := platform_publish_fst env post a
    rw [hp] at hfst
    refine ⟨?_, ?_, ?_⟩
    · simp [hg, hp, hsucc]
    · simp [hg, hp, hsucc]
    · intro j
      simp only [hg, hp]
      exact attempt_from_setAccount env post st.accounts i a hfind acc' hfst.1 hfst.2 j

lemma dispatch_fold_spec (env : RemoteEnv) (post : Post) (now : Nat) :
    ∀ (ids : List Nat) (st : DispatchState),
      (ids.foldl (dispatch_step env post now) st).publishedCount
          = st.publishedCount + ids.countP (fun i => attempt_from env post st.accounts i)
      ∧ (ids.foldl (dispatch_step env post now) st).failedCount
          = st.failedCount + ids.countP (fun i => !(attempt_from env post st.accounts i))
      ∧ ∀ j, attempt_from env post ((ids.foldl (dispatch_step env post now) st).accounts) j
          = attempt_from env post st.accounts j := by
  intro ids
  induction ids with
  | nil => intro st; exact ⟨by simp, by simp, fun j => rfl⟩
  | cons i rest ih =>
    intro st
    obtain ⟨hpc, hfc, hstab⟩ := dispatch_step_spec env post now st i
    obtain ⟨ihp, ihf, ihstab⟩ := ih (dispatch_step env post now st i)
    have hcnt1 : rest.countP
          (fun k => attempt_from env post (dispatch_step env post now st i).accounts k)
        = rest.countP (fun k => attempt_from env post st.accounts k) := by
      apply List.countP_congr
      intro k hk
      rw [hstab k]
    have hcnt2 : rest.countP
          (fun k => !(attempt_from env post (dispatch_step env post now st i).accounts k))
        = rest.countP (fun k => !(attempt_from env post st.accounts k)) := by
      apply List.countP_congr
      intro k hk
      rw [hstab k]
    refine ⟨?_, ?_, ?_⟩
    · rw [List.foldl_cons, ihp, hcnt1, hpc, List.countP_cons]
      by_cases hA : attempt_from env post st.accounts i = true <;> simp [hA] <;> omega
    · rw [List.foldl_cons, ihf, hcnt2, hfc, List.countP_cons]
      by_cases hA : attempt_from env post st.accounts i = true <;> simp [hA] <;> omega
    · intro j
      rw [List.foldl_cons, ihstab j, hstab j]

lemma attempt_from_post_status (env : RemoteEnv) (post : Post) (s : Status)
    (accounts : List Account) (i : Nat) :
    attempt_from env { post with status := s } accounts i
      = attempt_from env post accounts i := by
  unfold attempt_from
  cases findAccount accounts i with
  | none => rfl
  | some a => rfl

lemma publish_post_status_counts (env : RemoteEnv) (now : Nat) (post : Post)
    (accounts : List Account) (targets : List Target) (ids : List Nat) :
    (publish_post env now post accounts targets ids).post.status
      = post_status_from_counts
          (publish_post env now post accounts targets ids).publishedCount
          (publish_post env now post accounts targets ids).failedCount := by
  unfold publish_post post_status_from_counts
  dsimp only
  generalize (ids.foldl (dispatch_step env { post with status := Status.publishing } now)
      { accounts := accounts, targets := targets, events := [],
        publishedCount := 0, failedCount := 0 }) = F
  by_cases h1 : (decide (F.publishedCount > 0) && (F.failedCount == 0)) = true
  · rw [if_pos h1, if_pos h1]
  · rw [if_neg h1, if_neg h1]
    by_cases h2 : F.publishedCount > 0
    · rw [if_pos h2, if_pos h2]
    · rw [if_neg h2, if_neg h2]

/-- C1 amended: the Post's final status after a dispatch run is a pure
function of the run's success/failure counters, not of its Targets'
statuses: `publish_post` sets the status to
`post_status_from_counts published_count failed_count` (`tasks.py` lines
101-108), where `published_count` counts the dispatched account ids whose
publish attempt succeeded and `failed_count` the rest — including ids that
resolve to no account at all, which increment `failed_count` without any
Target row existing; Targets outside the dispatched id list (for example
cancelled ones) are ignored entirely.  The counterexample
shows how this diverges from a function of Target statuses. -/
theorem publish_post_aggregates_attempt_counts (env : RemoteEnv) (now : Nat)
    (post : Post) (accounts : List Account) (targets : List Target) (ids : List Nat) :
    (publish_post env now post accounts targets ids).publishedCount
        = ids.countP (fun i => attempt_from env post accounts i)
    ∧ (publish_post env now post accounts targets ids).failedCount
        = ids.countP (fun i => !(attempt_from env post accounts i))
    ∧ (publish_post env now post accounts targets ids).publishedCount
        + (publish_post env now post accounts targets ids).failedCount = ids.length
    ∧ (publish_post env now post accounts targets ids).post.status
        = post_status_from_counts
            (ids.countP (fun i => attempt_from env post accounts i))
            (ids.countP (fun i => !(attempt_from env post accounts i))) := by
  obtain ⟨hpc, hfc, hstab⟩ := dispatch_fold_spec env
    { post with status := Status.publishing } now ids
    { accounts := accounts, targets := targets, events := [],
      publishedCount := 0, failedCount := 0 }
  have hcong : ∀ k, k ∈ ids →
      attempt_from env { post with status := Status.publishing } accounts k
        = attempt_from env post accounts k := fun k _ =>
    attempt_from_post_status env post Status.publishing accounts k
  have hpc' : (publish_post env now post accounts targets ids).publishedCount
      = ids.countP (fun i => attempt_from env post accounts i) := by
    have h0 : (publish_post env now post accounts targets ids).publishedCount
        = (ids.foldl (dispatch_step env { post with status := Status.publishing } now)
            { accounts := accounts, targets := targets, events := [],
              publishedCount := 0, failedCount := 0 }).publishedCount := rfl
    rw [h0, hpc]
    dsimp only
    rw [List.countP_congr (fun k hk => by rw [hcong k hk])]
    simp
  have hfc' : (publish_post env now post accounts targets ids).failedCount
      = ids.countP (fun i => !(attempt_from env post accounts i)) := by
    have h0 : (publish_post env now post accounts targets ids).failedCount
        = (ids.foldl (dispatch_step env { post with status := Status.publishing } now)
            { accounts := accounts, targets := targets, events := [],
              publishedCount := 0, failedCount := 0 }).failedCount := rfl
    rw [h0, hfc]
    dsimp only
    rw [List.countP_congr (fun k hk => by rw [hcong k hk])]
    simp
  refine ⟨hpc', hfc', ?_, ?_⟩
  · rw [hpc', hfc']
    exact countP_not_add _ ids
  · rw [publish_post_status_counts, hpc', hfc']

/-- C9: dispatching a Target whose Account's platform is none of facebook,
instagram or linkedin takes the mock branch (`tasks.py` lines 69-74): the
target is marked `published` with the fabricated
`mock_<platform>_<post_id>` id and the `https://<platform>.com/posts/...`
url, no network request is made, and the mock success counts toward the
aggregate exactly like a real publish — a lone mock target makes the post
`published` with `published_at` set. -/
theorem mock_platform_publish (env : RemoteEnv) (now : Nat) (post : Post) (acc : Account)
    (h1 : acc.platform ≠ "facebook") (h2 : acc.platform ≠ "instagram")
    (h3 : acc.platform ≠ "linkedin") :
    (publish_post env now post [acc] [] [acc.id]).targets
        = [{ newTarget post.id acc.id with
              status := Status.published,
              platformPostId := "mock_" ++ acc.platform ++ "_" ++ toString post.id,
              platformUrl := "https://" ++ acc.platform ++ ".com/posts/"
                ++ ("mock_" ++ acc.platform ++ "_" ++ toString post.id),
              publishedAt := some now }]
    ∧ (publish_post env now post [acc] [] [acc.id]).events = []
    ∧ (publish_post env now post [acc] [] [acc.id]).post.status = Status.published
    ∧ (publish_post env now post [acc] [] [acc.id]).post.publishedAt = some now := by
  have hm := platform_publish_mock env { post with status := Status.publishing } acc h1 h2 h3
  refine ⟨?_, ?_, ?_, ?_⟩ <;>
    simp [publish_post, dispatch_step, findAccount_singleton, hm,
      getOrCreateTarget, findTarget, setTarget, List.find?, newTarget]

/-- Witness for `mock_platform_publish`: the connected Twitter account. -/
theorem mock_platform_publish_witness :
    fxTwitter.platform = "twitter"
    ∧ (publish_post fxEnvOk 100 fxPost [fxTwitter] [] [fxTwitter.id]).targets
        = [{ newTarget fxPost.id fxTwitter.id with
              status := Status.published,
              platformPostId := "mock_twitter_10",
              platformUrl := "https://twitter.com/posts/mock_twitter_10",
              publishedAt := some 100 }]
    ∧ (publish_post fxEnvOk 100 fxPost [fxTwitter] [] [fxTwitter.id]).post.status
        = Status.published :=
  ⟨rfl,
   (mock_platform_publish fxEnvOk 100 fxPost fxTwitter (by decide) (by decide)
      (by decide)).1,
   (mock_platform_publish fxEnvOk 100 fxPost fxTwitter (by decide) (by decide)
      (by decide)).2.2.1⟩

/-- C3: for an Instagram target whose post has an empty media list, the
Instagram service fails the publish locally with the `MEDIA_REQUIRED`
validation error before any network request (`instagram_service.py` lines
59-67); under dispatch the target is set to `failed` with that message as
its `error_message` (and `retry_count`/`next_retry_at` untouched — no
retry), no network event for the Instagram account is ever emitted, the
Facebook target of the same post ends up exactly as it would if it were
dispatched alone, and the message states that an image or video is
required. -/
theorem instagram_empty_media_validation (env : RemoteEnv) (now : Nat) (post : Post)
    (igAcc fbAcc : Account) (hm : post.mediaFiles = [])
    (hig : igAcc.platform = "instagram") (hfb : fbAcc.platform = "facebook")
    (hne : igAcc.id ≠ fbAcc.id) :
    instagram_publish env igAcc post.mediaFiles post.firstComment
        = (igAcc, [],
           { success := false,
             postId := none,
             postUrl := none,
             error := some mediaRequiredMessage })
    ∧ findTarget (publish_post env now post [igAcc, fbAcc] [] [igAcc.id, fbAcc.id]).targets
          post.id igAcc.id
        = some { newTarget post.id igAcc.id with
            status := Status.failed, errorMessage := mediaRequiredMessage }
    ∧ (∀ e ∈ (publish_post env now post [igAcc, fbAcc] [] [igAcc.id, fbAcc.id]).events,
        NetEvent.accountId e ≠ igAcc.id)
    ∧ findTarget (publish_post env now post [igAcc, fbAcc] [] [igAcc.id, fbAcc.id]).targets
          post.id fbAcc.id
        = findTarget (publish_post env now post [fbAcc] [] [fbAcc.id]).targets
            post.id fbAcc.id
    ∧ containsSub mediaRequiredMessage "requires at least one image or video" = true := by
  have hm1 : ({ post with status := Status.publishing } : Post).mediaFiles = [] := hm
  have hig2 := platform_publish_ig_nomedia env { post with status := Status.publishing }
    igAcc hig hm1
  have hb1 : (igAcc.id == fbAcc.id) = false := beq_eq_false_iff_ne.mpr hne
  have hb2 : (fbAcc.id == igAcc.id) = false := beq_eq_false_iff_ne.mpr (Ne.symm hne)
  refine ⟨?_, ?_, ?_, ?_, by decide⟩
  · rw [hm]
    simp [instagram_publish]
  · rcases henv : env.fbPublish fbAcc.id with ⟨pid, purl⟩ | msg
    · have hfb2 := platform_publish_fb_ok env { post with status := Status.publishing }
        fbAcc pid purl hfb henv
      simp [publish_post, dispatch_step, findAccount, List.find?, hb1, hb2,
        hne, Ne.symm hne, getOrCreateTarget, findTarget, setTarget, hig2, hfb2,
        newTarget]
    · have hfb2 := platform_publish_fb_err env { post with status := Status.publishing }
        fbAcc msg hfb henv
      simp [publish_post, dispatch_step, findAccount, List.find?, hb1, hb2,
        hne, Ne.symm hne, getOrCreateTarget, findTarget, setTarget, hig2, hfb2,
        newTarget]
  · rcases henv : env.fbPublish fbAcc.id with ⟨pid, purl⟩ | msg
    · have hfb2 := platform_publish_fb_ok env { post with status := Status.publishing }
        fbAcc pid purl hfb henv
      intro e he
      simp [publish_post, dispatch_step, findAccount, List.find?, hb1, hb2,
        hne, Ne.symm hne, getOrCreateTarget, findTarget, setTarget, hig2, hfb2,
        newTarget, hne, Ne.symm hne] at he
      simp [he, NetEvent.accountId, Ne.symm hne]
    · have hfb2 := platform_publish_fb_err env { post with status := Status.publishing }
        fbAcc msg hfb henv
      intro e he
      simp [publish_post, dispatch_step, findAccount, List.find?, hb1, hb2,
        hne, Ne.symm hne, getOrCreateTarget, findTarget, setTarget, hig2, hfb2,
        newTarget, hne, Ne.symm hne] at he
      simp [he, NetEvent.accountId, Ne.symm hne]
  · rcases henv : env.fbPublish fbAcc.id with ⟨pid, purl⟩ | msg
    · have hfb2 := platform_publish_fb_ok env { post with status := Status.publishing }
        fbAcc pid purl hfb henv
      simp [publish_post, dispatch_step, findAccount, List.find?, hb1, hb2,
        hne, Ne.symm hne, getOrCreateTarget, findTarget, setTarget, hig2, hfb2,
        newTarget]
    · have hfb2 := platform_publish_fb_err env { post with status := Status.publishing }
        fbAcc msg hfb henv
      simp [publish_post, dispatch_step, findAccount, List.find?, hb1, hb2,
        hne, Ne.symm hne, getOrCreateTarget, findTarget, setTarget, hig2, hfb2,
        newTarget]

/-- Witness for `instagram_empty_media_validation`: the media-less `fxPost`
dispatched to the Instagram and Facebook fixtures. -/
theorem instagram_empty_media_validation_witness :
    fxPost.mediaFiles = [] ∧ fxInstagram.platform = "instagram"
    ∧ fxFacebook.platform = "facebook" ∧ fxInstagram.id ≠ fxFacebook.id
    ∧ findTarget (publish_post fxEnvOk 100 fxPost [fxInstagram, fxFacebook] []
          [fxInstagram.id, fxFacebook.id]).targets fxPost.id fxInstagram.id
        = some { newTarget fxPost.id fxInstagram.id with
            status := Status.failed, errorMessage := mediaRequiredMessage } :=
  ⟨rfl, rfl, rfl, by decide,
   (instagram_empty_media_validation fxEnvOk 100 fxPost fxInstagram fxFacebook
      rfl rfl rfl (by decide)).2.1⟩


/-- C4 amended: only the Instagram service reacts to auth failures.  (i)
Its token-error handling marks the Account `expired` and the marking is
idempotent.  (ii) Under dispatch, an Instagram container-creation failure
with a token-related message leaves the account `expired` in the table and
the target terminally `failed` for this attempt, with no retry fields
touched.  (iii) The manual publish endpoint only ever queues account ids
that belong to `connected` accounts with posting enabled, so an expired
account is excluded there — but with a generic rejection, not an
`AuthError`.  (iv) A dispatch run issues network requests only for the
account ids it was queued with, so the exclusion in (iii) keeps the
network quiet for the expired account in the manual path.  (v) The
scheduled dispatch path, by contrast, performs no status check at all: a
dispatch on an `expired` LinkedIn account still calls the gateway. -/
theorem auth_error_handling_amended :
    (∀ (acc : Account) (msg : String), isTokenError msg = true →
      (markTokenExpired acc msg).status = AccountStatus.expired
      ∧ markTokenExpired (markTokenExpired acc msg) msg = markTokenExpired acc msg)
    ∧ (∀ (env : RemoteEnv) (now : Nat) (post : Post) (acc : Account) (u msg : String),
        post.mediaFiles = [u] → acc.platform = "instagram" →
        env.igCreateContainer acc.id u = RemoteResult.err msg →
        isTokenError msg = true →
        (publish_post env now post [acc] [] [acc.id]).accounts
            = [markTokenExpired acc msg]
        ∧ (publish_post env now post [acc] [] [acc.id]).targets
            = [{ newTarget post.id acc.id with
                  status := Status.failed,
                  errorMessage := "Failed to create media container: " ++ msg }])
    ∧ (∀ (post : Post) (accounts : List Account) (targets : List Target)
        (requested : List Nat) (ids : List Nat) (tg : List Target),
        publish_view post accounts targets requested
            = (PublishViewResponse.queued ids, tg) →
        ∀ i ∈ ids, ∃ a ∈ accounts, a.id = i ∧ a.status = AccountStatus.connected
          ∧ a.postingEnabled = true)
    ∧ (∀ (env : RemoteEnv) (now : Nat) (post : Post) (accounts : List Account)
        (targets : List Target) (ids : List Nat),
        ∀ e ∈ (publish_post env now post accounts targets ids).events,
          NetEvent.accountId e ∈ ids)
    ∧ (∀ (env : RemoteEnv) (now : Nat) (post : Post) (acc : Account),
        acc.status = AccountStatus.expired → acc.platform = "linkedin" →
        (publish_post env now post [acc] [] [acc.id]).events
            = [NetEvent.liCall acc.id]) := by
  refine ⟨?_, ?_, ?_, ?_, ?_⟩
  · intro acc msg htok
    exact ⟨rfl, rfl⟩
  · intro env now post acc u msg hm hpl henv htok
    have hm1 : ({ post with status := Status.publishing } : Post).mediaFiles = [u] := hm
    have hig2 := platform_publish_ig_create_err env
      { post with status := Status.publishing } acc u msg hpl hm1 henv
    rw [htok] at hig2
    simp only [if_true] at hig2
    constructor
    · simp [publish_post, dispatch_step, findAccount_singleton, hig2,
        getOrCreateTarget, findTarget, setTarget, setAccount, List.find?,
        newTarget, markTokenExpired]
    · simp [publish_post, dispatch_step, findAccount_singleton, hig2,
        getOrCreateTarget, findTarget, setTarget, setAccount, List.find?,
        newTarget]
  · intro post accounts targets requested ids tg hq i hi
    unfold publish_view at hq
    by_cases hpub : (post.status == Status.published
        || post.status == Status.partially_published) = true
    · rw [if_pos hpub] at hq
      simp at hq
    · rw [if_neg hpub] at hq
      by_cases hreq : requested.isEmpty = true
      · rw [if_pos hreq] at hq
        simp at hq
      · rw [if_neg hreq] at hq
        dsimp only at hq
        by_cases hval : ((accounts.filter (fun a =>
            requested.contains a.id && a.status == AccountStatus.connected
              && a.postingEnabled)).map (fun a => a.id)).isEmpty = true
        · rw [if_pos hval] at hq
          simp at hq
        · rw [if_neg hval] at hq
          have hids : PublishViewResponse.queued ((accounts.filter (fun a =>
              requested.contains a.id && a.status == AccountStatus.connected
                && a.postingEnabled)).map (fun a => a.id))
              = PublishViewResponse.queued ids := congrArg Prod.fst hq
          have hids' : (accounts.filter (fun a =>
              requested.contains a.id && a.status == AccountStatus.connected
                && a.postingEnabled)).map (fun a => a.id) = ids := by
            cases hids
            rfl
          rw [← hids'] at hi
          rcases List.mem_map.mp hi with ⟨a, haf, haid⟩
          rcases List.mem_filter.mp haf with ⟨hmem, hp⟩
          rcases Bool.and_eq_true_iff.mp hp with ⟨hp1, hp3⟩
          rcases Bool.and_eq_true_iff.mp hp1 with ⟨hp0, hp2⟩
          exact ⟨a, hmem, haid, eq_of_beq hp2, hp3⟩
  · intro env now post accounts targets ids e he
    exact publish_post_events_ids env now post accounts targets ids e he
  · intro env now post acc hst hpl
    rcases henv : env.liPublish acc.id with ⟨pid, purl⟩ | msg
    · have hli := platform_publish_li_ok env { post with status := Status.publishing }
        acc pid purl hpl henv
      simp [publish_post, dispatch_step, findAccount_singleton, hli,
        getOrCreateTarget, findTarget, setTarget, List.find?, newTarget]
    · have hli := platform_publish_li_err env { post with status := Status.publishing }
        acc msg hpl henv
      simp [publish_post, dispatch_step, findAccount_singleton, hli,
        getOrCreateTarget, findTarget, setTarget, List.find?, newTarget]

/-- Witness for `auth_error_handling_amended`: the Instagram token-failure
fixture and the expired LinkedIn account. -/
theorem auth_error_handling_amended_witness :
    isTokenError "Invalid OAuth access token" = true
    ∧ (publish_post fxEnvIgAuth 100 fxPostMedia [fxInstagram] [] [fxInstagram.id]).accounts
        = [markTokenExpired fxInstagram "Invalid OAuth access token"]
    ∧ fxExpiredLi.status = AccountStatus.expired
    ∧ (publish_post fxEnvOk 100 fxPost [fxExpiredLi] [] [fxExpiredLi.id]).events
        = [NetEvent.liCall fxExpiredLi.id] :=
  ⟨by decide,
   (auth_error_handling_amended.2.1 fxEnvIgAuth 100 fxPostMedia fxInstagram
      "https://cdn.example/a.jpg" "Invalid OAuth access token" rfl rfl rfl
      (by decide)).1,
   rfl,
   auth_error_handling_amended.2.2.2.2 fxEnvOk 100 fxPost fxExpiredLi rfl rfl⟩

/-- C5 amended: the `pending → publishing` transition of the dispatch loop
is an unconditional read-modify-write, not a compare-and-swap: (i) the
outcome of dispatching a Target is completely independent of the Target's
prior status — the step behaves identically whatever status the row held,
so nothing is ever rejected; (ii) in particular a LinkedIn Target is sent
to the gateway (one network call) whatever its prior status, so a second
invocation of the dispatch on the same Target performs a second gateway
call rather than being rejected by any `pending` check. -/
theorem publishing_transition_unconditional :
    (∀ (env : RemoteEnv) (post : Post) (now : Nat) (accounts : List Account)
        (ev : List NetEvent) (pc fc i : Nat) (a : Account) (t : Target)
        (s₁ s₂ : Status),
      findAccount accounts i = some a → t.postId = post.id → t.accountId = i →
      dispatch_step env post now
          { accounts := accounts, targets := [{ t with status := s₁ }],
            events := ev, publishedCount := pc, failedCount := fc } i
        = dispatch_step env post now
            { accounts := accounts, targets := [{ t with status := s₂ }],
              events := ev, publishedCount := pc, failedCount := fc } i)
    ∧ (∀ (env : RemoteEnv) (post : Post) (now : Nat) (ev : List NetEvent)
        (pc fc : Nat) (a : Account) (t : Target) (s : Status),
      a.platform = "linkedin" → t.postId = post.id → t.accountId = a.id →
      (dispatch_step env post now
          { accounts := [a], targets := [{ t with status := s }],
            events := ev, publishedCount := pc, failedCount := fc } a.id).events
        = ev ++ [NetEvent.liCall a.id]) := by
  constructor
  · intro env post now accounts ev pc fc i a t s₁ s₂ hfind ht1 ht2
    have hb1 : (t.postId == post.id) = true := beq_iff_eq.mpr ht1
    have hb2 : (t.accountId == i) = true := beq_iff_eq.mpr ht2
    unfold dispatch_step
    rw [hfind]
    simp [getOrCreateTarget, findTarget, setTarget, List.find?, hb1, hb2]
  · intro env post now ev pc fc a t s hpl ht1 ht2
    have hb1 : (t.postId == post.id) = true := beq_iff_eq.mpr ht1
    have hb2 : (t.accountId == a.id) = true := beq_iff_eq.mpr ht2
    rcases henv : env.liPublish a.id with ⟨pid, purl⟩ | msg
    · have hli := platform_publish_li_ok env post a pid purl hpl henv
      unfold dispatch_step
      rw [findAccount_singleton]
      simp [getOrCreateTarget, findTarget, setTarget, List.find?, hb1, hb2, hli]
    · have hli := platform_publish_li_err env post a msg hpl henv
      unfold dispatch_step
      rw [findAccount_singleton]
      simp [getOrCreateTarget, findTarget, setTarget, List.find?, hb1, hb2, hli]

/-- Witness for `publishing_transition_unconditional`: dispatching the
already-`published` fixture target behaves exactly like dispatching it
`pending`, and still issues the gateway call. -/
theorem publishing_transition_unconditional_witness :
    findAccount [fxLinkedIn] fxLinkedIn.id = some fxLinkedIn
    ∧ dispatch_step fxEnvOk fxPost 100
        { accounts := [fxLinkedIn], targets := [{ newTarget 10 2 with status := Status.published }],
          events := [], publishedCount := 0, failedCount := 0 } fxLinkedIn.id
      = dispatch_step fxEnvOk fxPost 100
          { accounts := [fxLinkedIn], targets := [{ newTarget 10 2 with status := Status.pending }],
            events := [], publishedCount := 0, failedCount := 0 } fxLinkedIn.id
    ∧ (dispatch_step fxEnvOk fxPost 100
        { accounts := [fxLinkedIn], targets := [{ newTarget 10 2 with status := Status.published }],
          events := [], publishedCount := 0, failedCount := 0 } fxLinkedIn.id).events
      = [] ++ [NetEvent.liCall fxLinkedIn.id] :=
  ⟨rfl,
   publishing_transition_unconditional.1 fxEnvOk fxPost 100 [fxLinkedIn] [] 0 0
     fxLinkedIn.id fxLinkedIn (newTarget 10 2) Status.published Status.pending
     rfl rfl rfl,
   publishing_transition_unconditional.2 fxEnvOk fxPost 100 [] 0 0 fxLinkedIn
     (newTarget 10 2) Status.published rfl rfl rfl⟩

end Social
